import Mathlib

/-!
# Verification of the gesture-controlled-applications backend

A shallow embedding, in Lean 4, of the parts of the Python backend that the
checked claims talk about: the camera frame buffer (`pipelines/ingestion/camera.py`),
the orchestrator error policy (`pipelines/orchestrator.py`), the inference
engine (`pipelines/inference/engine.py`), the three gesture classifiers
(`features/volume_control/classifier.py`, `features/virtual_mouse/classifier.py`,
`pipelines/inference/classifiers/finger_count.py`), the event dispatcher
(`pipelines/output/dispatcher.py`) and the One-Euro filter
(`features/virtual_mouse/filters.py`).

Python floats are modelled as exact rationals (`ℚ`); dictionaries keyed by
strings as association lists; exceptions as `Except` / explicit error flags.
-/

namespace GestureApp

/-! ## Core types (core/types.py) -/

/-- `GestureType` enum from `core/types.py`. -/
inductive GestureType where
  | none
  | fingerCount
  | pinch
  | swipeLeft
  | swipeRight
  | swipeUp
  | swipeDown
  | thumbsUp
  | thumbsDown
  | fist
  | openPalm
  | peace
  | okSign
  | pointing
  deriving DecidableEq, Repr

/-- A single hand landmark (`Landmark` in `core/types.py`).  Normalised
coordinates; the pixel coordinates and visibility are not used by any
modelled code path and are omitted. -/
structure Landmark where
  x : ℚ
  y : ℚ
  z : ℚ := 0
  deriving DecidableEq, Repr

instance : Inhabited Landmark := ⟨⟨0, 0, 0⟩⟩

/-- `HandLandmarks` from `core/types.py`.  The `hand_label` is a string
(`"Left"`/`"Right"`), matching the `str`-valued `HandLabel` enum. -/
structure HandLandmarks where
  hand_label : String
  landmarks : List Landmark
  confidence : ℚ
  deriving DecidableEq, Repr

/-- `ExtractionResult` from `core/types.py` (latency fields carried along
but unused by classifier logic). -/
structure ExtractionResult where
  hands : List HandLandmarks
  extraction_latency_ms : ℚ := 0
  model_confidence : ℚ := 0
  frame_timestamp : ℚ := 0
  deriving DecidableEq, Repr

/-- `ExtractionResult.hands_detected` property. -/
def ExtractionResult.hands_detected (e : ExtractionResult) : ℕ :=
  e.hands.length

/-! ## Frame buffer (pipelines/ingestion/camera.py, `_capture_loop`)

The producer thread puts each captured frame into an `asyncio.Queue` of
capacity `buffer_size` (default 5).  `put_nowait` succeeds while the queue
is below capacity (a capacity of 0 means unbounded in asyncio); on
`QueueFull` the loop dequeues the oldest element with `get_nowait`, enqueues
the new frame, and increments the dropped counter.  The queue is modelled as
a list whose head is the oldest element. -/

/-- One `put` of the capture loop (camera.py lines 279-290): returns the new
queue together with the updated dropped counter.  The `[]` branch mirrors
the bare `except: pass` around `get_nowait` (unreachable when the queue is
full with positive capacity). -/
def capture_put {α : Type} (capacity : ℕ) (queue : List α) (dropped : ℕ)
    (f : α) : List α × ℕ :=
  if capacity = 0 ∨ queue.length < capacity then
    (queue ++ [f], dropped)
  else
    match queue with
    | [] => (queue, dropped)
    | _ :: rest => (rest ++ [f], dropped + 1)

/-! ## Orchestrator error policy (pipelines/orchestrator.py) -/

/-- `OrchestratorState` enum. -/
inductive OrchestratorState where
  | idle
  | initializing
  | running
  | paused
  | stopping
  | stopped
  | error
  deriving DecidableEq, Repr

/-- `CaptureState` enum of the camera ingestion stage (camera.py). -/
inductive CaptureState where
  | idle
  | initializing
  | capturing
  | paused
  | stopping
  | stopped
  | error
  deriving DecidableEq, Repr

/-- `OrchestratorConfig` (orchestrator.py). -/
structure OrchestratorConfig where
  target_fps : ℕ := 30
  max_consecutive_errors : ℕ := 10
  deriving DecidableEq, Repr

/-- The orchestrator fields touched by the processing loop and its error
policy, together with the ingestion stage's capture state (the camera is a
separate component; `ingestion.stop()` is what moves `captureState` to
`stopped`). -/
structure Orchestrator where
  state : OrchestratorState
  running : Bool
  consecutive_errors : ℕ
  errors_count : ℕ
  frames_processed : ℕ
  captureState : CaptureState
  deriving DecidableEq, Repr

/-- The outcome of one iteration of `_processing_loop` that dequeued a
frame: the stage chain either completes or raises. `noFrame` models a
`get_frame` timeout (the loop just continues). -/
inductive FrameEvent where
  | success
  | failure
  | noFrame
  deriving DecidableEq, Repr

/-- `_handle_error` (orchestrator.py lines 333-348): increment the
consecutive-error counter and the error metric; at
`max_consecutive_errors` stop the loop and enter the Error state.  Note
that this path does not touch the ingestion stage: `captureState` is left
unchanged. -/
def handle_error (cfg : OrchestratorConfig) (o : Orchestrator) : Orchestrator :=
  let o' := { o with
    consecutive_errors := o.consecutive_errors + 1,
    errors_count := o.errors_count + 1 }
  if cfg.max_consecutive_errors ≤ o'.consecutive_errors then
    { o' with running := false, state := OrchestratorState.error }
  else
    o'

/-- One iteration of `_processing_loop` (orchestrator.py lines 258-293) on a
dequeued frame.  On success `_process_frame` increments `frames_processed`
and the loop resets the consecutive-error counter; on a per-frame exception
`_process_frame` increments `errors_count` (line 330) and re-raises, and the
loop's handler runs `_handle_error`. -/
def loop_step (cfg : OrchestratorConfig) (o : Orchestrator)
    (ev : FrameEvent) : Orchestrator :=
  match ev with
  | FrameEvent.success =>
      { o with
        frames_processed := o.frames_processed + 1,
        consecutive_errors := 0 }
  | FrameEvent.failure =>
      handle_error cfg { o with errors_count := o.errors_count + 1 }
  | FrameEvent.noFrame => o

/-- Run the processing loop over a sequence of frame events; the loop only
keeps iterating while `self._running` holds. -/
def run_loop (cfg : OrchestratorConfig) : Orchestrator → List FrameEvent → Orchestrator
  | o, [] => o
  | o, ev :: evs => if o.running then run_loop cfg (loop_step cfg o ev) evs else o

/-- `stop()` (orchestrator.py lines 181-206): cancels the loop, stops the
ingestion stage (which releases the camera) and moves to Stopped.  This is
the only modelled path that stops the capture. -/
def orchestrator_stop (o : Orchestrator) : Orchestrator :=
  { o with
    running := false,
    captureState := CaptureState.stopped,
    state := OrchestratorState.stopped }

/-- A running orchestrator with a clean error counter and the camera
capturing, as set up by `start()`. -/
def running_orchestrator : Orchestrator :=
  { state := OrchestratorState.running
    running := true
    consecutive_errors := 0
    errors_count := 0
    frames_processed := 0
    captureState := CaptureState.capturing }

/-! ### Loop lemmas -/

lemma run_loop_not_running (cfg : OrchestratorConfig) (o : Orchestrator)
    (evs : List FrameEvent) (h : o.running = false) :
    run_loop cfg o evs = o := by
  cases evs with
  | nil => rfl
  | cons ev evs => simp [run_loop, h]

lemma run_loop_append (cfg : OrchestratorConfig) (o : Orchestrator)
    (xs ys : List FrameEvent) :
    run_loop cfg o (xs ++ ys) = run_loop cfg (run_loop cfg o xs) ys := by
  induction xs generalizing o with
  | nil => rfl
  | cons x xs ih =>
      by_cases h : o.running
      · simp [run_loop, h, ih]
      · simp only [Bool.not_eq_true] at h
        rw [run_loop_not_running cfg o _ h, run_loop_not_running cfg o _ h,
          run_loop_not_running cfg o _ h]

/-- Running `k` consecutive failures while staying strictly below the
threshold only moves the two error counters. -/
lemma run_loop_failures_below (cfg : OrchestratorConfig) (o : Orchestrator)
    (k : ℕ) (hrun : o.running = true)
    (hlt : o.consecutive_errors + k < cfg.max_consecutive_errors) :
    run_loop cfg o (List.replicate k FrameEvent.failure) =
      { o with
        consecutive_errors := o.consecutive_errors + k,
        errors_count := o.errors_count + 2 * k } := by
  induction k generalizing o with
  | zero =>
      simp only [List.replicate_zero, Nat.add_zero, Nat.mul_zero]
      rfl
  | succ k ih =>
      have hstep : ¬ cfg.max_consecutive_errors ≤ o.consecutive_errors + 1 := by
        omega
      have h1 : loop_step cfg o FrameEvent.failure =
          { o with
            consecutive_errors := o.consecutive_errors + 1,
            errors_count := o.errors_count + 2 } := by
        simp [loop_step, handle_error, hstep]
      have h2 : o.consecutive_errors + 1 + k < cfg.max_consecutive_errors := by
        omega
      rw [List.replicate_succ]
      rw [show run_loop cfg o (FrameEvent.failure :: List.replicate k FrameEvent.failure)
            = run_loop cfg (loop_step cfg o FrameEvent.failure)
                (List.replicate k FrameEvent.failure) from by simp [run_loop, hrun]]
      rw [h1, ih { o with
            consecutive_errors := o.consecutive_errors + 1,
            errors_count := o.errors_count + 2 } hrun h2]
      simp only [Orchestrator.mk.injEq, true_and, and_true]
      omega

lemma run_loop_singleton (cfg : OrchestratorConfig) (o : Orchestrator)
    (ev : FrameEvent) (hrun : o.running = true) :
    run_loop cfg o [ev] = loop_step cfg o ev := by
  simp [run_loop, hrun]

/-- C1, counterexample to the claim as stated: from a running orchestrator
with the camera capturing, ten consecutive per-frame exceptions (the default
`max_consecutive_errors`) put the orchestrator into the Error state and stop
its processing loop, but the capture is NOT stopped: `_handle_error` never
calls `ingestion.stop()`, so the camera stays in the Capturing state. -/
theorem C1_capture_not_stopped :
    (run_loop {} running_orchestrator
        (List.replicate 10 FrameEvent.failure)).state = OrchestratorState.error ∧
    (run_loop {} running_orchestrator
        (List.replicate 10 FrameEvent.failure)).running = false ∧
    (run_loop {} running_orchestrator
        (List.replicate 10 FrameEvent.failure)).captureState = CaptureState.capturing ∧
    CaptureState.capturing ≠ CaptureState.stopped := by
  decide

/-- C1 (amended): after exactly `max_consecutive_errors` consecutive
per-frame exceptions the orchestrator transitions to Error and stops its
own processing loop (`running = false`), leaving the capture state of the
ingestion stage untouched; after one fewer consecutive exception it is
still Running; a successful frame resets the consecutive-error counter to
zero. -/
theorem C1_error_threshold (cfg : OrchestratorConfig) (o : Orchestrator)
    (hrun : o.running = true) (hst : o.state = OrchestratorState.running)
    (hc : o.consecutive_errors = 0) (hmax : 0 < cfg.max_consecutive_errors) :
    (run_loop cfg o
        (List.replicate cfg.max_consecutive_errors FrameEvent.failure)).state =
      OrchestratorState.error ∧
    (run_loop cfg o
        (List.replicate cfg.max_consecutive_errors FrameEvent.failure)).running = false ∧
    (run_loop cfg o
        (List.replicate cfg.max_consecutive_errors FrameEvent.failure)).captureState =
      o.captureState ∧
    (run_loop cfg o
        (List.replicate (cfg.max_consecutive_errors - 1) FrameEvent.failure)).state =
      OrchestratorState.running ∧
    (run_loop cfg o
        (List.replicate (cfg.max_consecutive_errors - 1) FrameEvent.failure)).running = true ∧
    (loop_step cfg o FrameEvent.success).consecutive_errors = 0 := by
  have hprev : run_loop cfg o
      (List.replicate (cfg.max_consecutive_errors - 1) FrameEvent.failure) =
      { o with
        consecutive_errors := o.consecutive_errors + (cfg.max_consecutive_errors - 1),
        errors_count := o.errors_count + 2 * (cfg.max_consecutive_errors - 1) } :=
    run_loop_failures_below cfg o _ hrun (by omega)
  have hsplit : List.replicate cfg.max_consecutive_errors FrameEvent.failure =
      List.replicate (cfg.max_consecutive_errors - 1) FrameEvent.failure
        ++ [FrameEvent.failure] := by
    rw [← List.replicate_succ']
    congr 1
    omega
  have hcond : cfg.max_consecutive_errors ≤
      o.consecutive_errors + (cfg.max_consecutive_errors - 1) + 1 := by omega
  have hfin : run_loop cfg o
      (List.replicate cfg.max_consecutive_errors FrameEvent.failure) =
      { o with
        running := false,
        state := OrchestratorState.error,
        consecutive_errors := o.consecutive_errors + (cfg.max_consecutive_errors - 1) + 1,
        errors_count := o.errors_count + 2 * (cfg.max_consecutive_errors - 1) + 2 } := by
    rw [hsplit, run_loop_append, hprev,
      run_loop_singleton cfg
        { o with
          consecutive_errors := o.consecutive_errors + (cfg.max_consecutive_errors - 1),
          errors_count := o.errors_count + 2 * (cfg.max_consecutive_errors - 1) }
        FrameEvent.failure hrun]
    simp [loop_step, handle_error, hcond]
  refine ⟨?_, ?_, ?_, ?_, ?_, ?_⟩
  · rw [hfin]
  · rw [hfin]
  · rw [hfin]
  · rw [hprev]; exact hst
  · rw [hprev]; exact hrun
  · simp [loop_step]

/-- Witness for C1: the amended theorem instantiated with the default
configuration and a freshly started orchestrator. -/
theorem C1_error_threshold_witness :
    running_orchestrator.running = true ∧
    running_orchestrator.state = OrchestratorState.running ∧
    running_orchestrator.consecutive_errors = 0 ∧
    0 < ({} : OrchestratorConfig).max_consecutive_errors ∧
    ((run_loop {} running_orchestrator
        (List.replicate 10 FrameEvent.failure)).state = OrchestratorState.error ∧
     (run_loop {} running_orchestrator
        (List.replicate 10 FrameEvent.failure)).running = false ∧
     (run_loop {} running_orchestrator
        (List.replicate 10 FrameEvent.failure)).captureState =
       running_orchestrator.captureState ∧
     (run_loop {} running_orchestrator
        (List.replicate 9 FrameEvent.failure)).state = OrchestratorState.running ∧
     (run_loop {} running_orchestrator
        (List.replicate 9 FrameEvent.failure)).running = true ∧
     (loop_step {} running_orchestrator FrameEvent.success).consecutive_errors = 0) :=
  ⟨rfl, rfl, rfl, by decide,
   C1_error_threshold {} running_orchestrator rfl rfl rfl (by decide)⟩

/-- C3: when the frame buffer holds exactly its capacity, enqueuing one more
frame discards the oldest buffered frame, retains the new frame after the
remaining `capacity - 1` frames in order, and increments the dropped counter
by one. -/
theorem C3_buffer_drop_oldest {α : Type} (capacity : ℕ) (queue : List α)
    (dropped : ℕ) (f : α) (hfull : queue.length = capacity)
    (hpos : 0 < capacity) :
    capture_put capacity queue dropped f = (queue.tail ++ [f], dropped + 1) ∧
    (queue.tail ++ [f]).length = capacity := by
  have h0 : ¬(capacity = 0 ∨ queue.length < capacity) := by omega
  cases queue with
  | nil =>
      simp only [List.length_nil] at hfull
      omega
  | cons a rest =>
      refine ⟨?_, ?_⟩
      · simp only [capture_put]
        rw [if_neg h0]
        rfl
      simp only [List.length_cons] at hfull
      simp only [List.tail_cons, List.length_append, List.length_singleton]
      omega

/-- Witness for C3: a buffer of capacity 5 holding frames 0..4; producing
frame 5 discards frame 0 and bumps the dropped counter. -/
theorem C3_buffer_drop_oldest_witness :
    ([0, 1, 2, 3, 4] : List ℕ).length = 5 ∧ 0 < 5 ∧
    (capture_put 5 [0, 1, 2, 3, 4] 0 5 = ([1, 2, 3, 4, 5], 1) ∧
     ([1, 2, 3, 4, 5] : List ℕ).length = 5) :=
  ⟨rfl, by decide, C3_buffer_drop_oldest 5 [0, 1, 2, 3, 4] 0 5 rfl (by decide)⟩

/-! ## Inference engine (pipelines/inference/engine.py)

The engine holds a `name → classifier` dict and an active name.  For claim
C2 only the call structure matters, so the engine is modelled as a trace
machine: operations are `register_classifier` / `unregister_classifier` /
`set_active_classifier` / `infer`, and the observable events are the
`reset()` and `classify()` calls the engine makes on classifiers. -/

/-- Operations on the inference engine. -/
inductive EngineOp where
  | register (name : String)
  | unregister (name : String)
  | setActive (name : String)
  | infer
  deriving DecidableEq, Repr

/-- Calls the engine makes into a classifier. -/
inductive EngineEvent where
  | reset (name : String)
  | classify (name : String)
  deriving DecidableEq, Repr

/-- The engine's own state: the registered classifier names (dict keys in
insertion order) and the active name. -/
structure EngineState where
  classifiers : List String
  active : Option String
  deriving DecidableEq, Repr

/-- The engine before any registration. -/
def engine_init : EngineState := ⟨[], Option.none⟩

/-- One engine operation, returning the next state and the classifier calls
it performs.
* `register_classifier` (engine.py 105-117) stores the classifier and
  auto-activates it when no classifier is active yet — without any `reset()`.
* `unregister_classifier` (119-138) removes it, clearing the active pointer
  if needed.
* `set_active_classifier` (140-161) fails when the name is unknown;
  otherwise it swaps the active pointer and calls `reset()` on the newly
  selected classifier.
* `infer` (167-205) calls `classify()` on the active classifier, if any. -/
def engine_step (s : EngineState) : EngineOp → EngineState × List EngineEvent
  | EngineOp.register name =>
      let classifiers :=
        if name ∈ s.classifiers then s.classifiers else s.classifiers ++ [name]
      let active := if s.active = Option.none then Option.some name else s.active
      (⟨classifiers, active⟩, [])
  | EngineOp.unregister name =>
      if name ∈ s.classifiers then
        (⟨s.classifiers.erase name,
          if s.active = Option.some name then Option.none else s.active⟩, [])
      else (s, [])
  | EngineOp.setActive name =>
      if name ∈ s.classifiers then
        (⟨s.classifiers, Option.some name⟩, [EngineEvent.reset name])
      else (s, [])
  | EngineOp.infer =>
      match s.active with
      | Option.none => (s, [])
      | Option.some name =>
          if name ∈ s.classifiers then (s, [EngineEvent.classify name])
          else (s, [])

/-- Run a list of engine operations, concatenating the classifier calls. -/
def engine_run (s : EngineState) : List EngineOp → EngineState × List EngineEvent
  | [] => (s, [])
  | op :: ops =>
      let step := engine_step s op
      let rest := engine_run step.1 ops
      (rest.1, step.2 ++ rest.2)

/-- The classifier calls produced by a trace of operations from the fresh
engine. -/
def engine_events (ops : List EngineOp) : List EngineEvent :=
  (engine_run engine_init ops).2

lemma engine_run_append (s : EngineState) (xs ys : List EngineOp) :
    engine_run s (xs ++ ys) =
      ((engine_run (engine_run s xs).1 ys).1,
        (engine_run s xs).2 ++ (engine_run (engine_run s xs).1 ys).2) := by
  induction xs generalizing s with
  | nil => simp [engine_run]
  | cons x xs ih => simp [engine_run, ih]

/-- C2, counterexample to the claim as stated: registering the first
classifier auto-activates it without any `reset()` call, so in the trace
`[register "a", infer]` the classifier "a" is active and receives a
`classify()` with no `reset()` anywhere before it. -/
theorem C2_auto_activate_without_reset :
    (engine_run engine_init [EngineOp.register "a"]).1.active = Option.some "a" ∧
    engine_events [EngineOp.register "a", EngineOp.infer] =
      [EngineEvent.classify "a"] ∧
    EngineEvent.reset "a" ∉
      engine_events [EngineOp.register "a", EngineOp.infer] := by
  refine ⟨rfl, rfl, ?_⟩
  decide

/-- C2 (amended): `set_active_classifier(n)` on a registered name `n`
performs `reset()` on `n` at the moment of the switch, before any
classifier call made by subsequent engine operations — in particular before
the first `classify` routed to `n` after this activation.  (The
auto-activation performed by `register_classifier` for the first registered
classifier does not reset, which is what refutes the unrestricted claim.) -/
theorem C2_set_active_resets (pre post : List EngineOp) (n : String)
    (hreg : n ∈ (engine_run engine_init pre).1.classifiers) :
    engine_events (pre ++ EngineOp.setActive n :: post) =
      engine_events pre ++ EngineEvent.reset n ::
        (engine_run
          ⟨(engine_run engine_init pre).1.classifiers, Option.some n⟩ post).2 := by
  rw [engine_events, engine_run_append]
  simp only [engine_events]
  rw [show engine_run (engine_run engine_init pre).1 (EngineOp.setActive n :: post) =
      (let step := engine_step (engine_run engine_init pre).1 (EngineOp.setActive n)
       let rest := engine_run step.1 post
       (rest.1, step.2 ++ rest.2)) from rfl]
  simp only [engine_step, if_pos hreg]
  rfl

/-- Witness for C2: after registering "a" and "b", switching to "b" emits
its reset before the classify of the subsequent infer. -/
theorem C2_set_active_resets_witness :
    "b" ∈ (engine_run engine_init
        [EngineOp.register "a", EngineOp.register "b"]).1.classifiers ∧
    engine_events ([EngineOp.register "a", EngineOp.register "b"] ++
        EngineOp.setActive "b" :: [EngineOp.infer]) =
      engine_events [EngineOp.register "a", EngineOp.register "b"] ++
        EngineEvent.reset "b" ::
          (engine_run
            ⟨(engine_run engine_init
                [EngineOp.register "a", EngineOp.register "b"]).1.classifiers,
              Option.some "b"⟩ [EngineOp.infer]).2 :=
  ⟨by decide,
   C2_set_active_resets [EngineOp.register "a", EngineOp.register "b"]
     [EngineOp.infer] "b" (by decide)⟩

/-! ## Volume-control classifier (features/volume_control/classifier.py)

`classify` computes the thumb-tip/index-tip Euclidean distance with
`math.sqrt`; since `ℚ` has no square root, that distance is passed to the
embedded `volume_classify` as the `pinch_distance` argument (the claims
quantify over the distance directly).  Everything downstream of the
distance — fist detection, mute hold, clamping, linear mapping, smoothing —
is embedded from the source. -/

/-- `VolumeControlConfig` defaults (features/volume_control/config.py). -/
structure VolumeControlConfig where
  min_confidence : ℚ := 3 / 4
  pinch_threshold_min : ℚ := 3 / 100
  pinch_threshold_max : ℚ := 3 / 20
  volume_min : ℚ := 0
  volume_max : ℚ := 1
  smoothing_factor : ℚ := 3 / 10
  smoothing_enabled : Bool := true
  mute_enabled : Bool := true
  mute_hold_duration_ms : ℚ := 1000
  preferred_hand : String := "Right"
  deriving DecidableEq, Repr

/-- Mutable classifier state (classifier.py `__init__` / `reset`). -/
structure VolumeState where
  current_volume : ℚ := 1 / 2
  fist_start_time : Option ℚ := Option.none
  is_muted : Bool := false
  last_pinch_distance : ℚ := 0
  deriving DecidableEq, Repr

/-- `PinchState` dataclass. -/
structure PinchState where
  distance : ℚ
  is_pinched : Bool
  mapped_volume : ℚ
  hand_label : String
  deriving DecidableEq, Repr

/-- The fields of the `InferenceResult` produced by the volume classifier:
gesture tag, confidence, and the `raw_output` entries the claims mention;
`mute_toggled` is true exactly when `_create_result` was given the
`mute_toggled=True` keyword.  `finger_count` is the optional
`InferenceResult.finger_count` field, which this classifier never sets. -/
structure VolumeResult where
  gesture_type : GestureType
  confidence : ℚ
  volume_level : ℚ
  is_muted : Bool
  mute_toggled : Bool := false
  finger_count : Option ℕ := Option.none
  deriving DecidableEq, Repr

/-- `_get_preferred_hand` (classifier.py 118-134). -/
def get_preferred_hand (cfg : VolumeControlConfig) (e : ExtractionResult) :
    Option HandLandmarks :=
  if e.hands_detected = 0 then Option.none
  else if cfg.preferred_hand = "Any" then e.hands.head?
  else
    match e.hands.find? (fun h => h.hand_label == cfg.preferred_hand) with
    | Option.some h => Option.some h
    | Option.none => e.hands.head?

/-- `_calculate_pinch_state` (classifier.py 136-163). -/
def calculate_pinch_state (cfg : VolumeControlConfig) (distance : ℚ)
    (hand : HandLandmarks) : PinchState :=
  let clamped := max cfg.pinch_threshold_min (min distance cfg.pinch_threshold_max)
  let range_size := cfg.pinch_threshold_max - cfg.pinch_threshold_min
  let normalized := (clamped - cfg.pinch_threshold_min) / range_size
  let volume_range := cfg.volume_max - cfg.volume_min
  { distance := distance
    is_pinched := decide (distance < cfg.pinch_threshold_min)
    mapped_volume := cfg.volume_min + normalized * volume_range
    hand_label := hand.hand_label }

/-- `_check_fist` (classifier.py 165-175): all four non-thumb tips at or
below their PIP joints. -/
def check_fist (landmarks : List Landmark) : Bool :=
  ([(8, 6), (12, 10), (16, 14), (20, 18)] : List (ℕ × ℕ)).all fun p =>
    ! decide ((landmarks.getD p.1 default).y < (landmarks.getD p.2 default).y)

/-- `_handle_fist` (classifier.py 177-208): start the hold timer on the
first fist frame; once the hold reaches `mute_hold_duration_ms`, toggle
mute, clear the timer, and report `mute_toggled=True`. -/
def handle_fist (cfg : VolumeControlConfig) (t : ℚ) (confidence : ℚ)
    (s : VolumeState) : VolumeState × VolumeResult :=
  let start := s.fist_start_time.getD t
  let hold_duration := (t - start) * 1000
  if cfg.mute_hold_duration_ms ≤ hold_duration then
    let s' := { s with is_muted := !s.is_muted, fist_start_time := Option.none }
    (s', { gesture_type := GestureType.fist, confidence := confidence
           volume_level := s'.current_volume, is_muted := s'.is_muted
           mute_toggled := true })
  else
    let s' := { s with fist_start_time := Option.some start }
    (s', { gesture_type := GestureType.fist, confidence := confidence
           volume_level := s'.current_volume, is_muted := s'.is_muted })

/-- `_smooth_volume` (classifier.py 210-213). -/
def smooth_volume (cfg : VolumeControlConfig) (current target : ℚ) : ℚ :=
  cfg.smoothing_factor * target + (1 - cfg.smoothing_factor) * current

/-- `classify` (classifier.py 57-116), with the thumb-index Euclidean
distance supplied as `pinch_distance` (see the section comment). -/
def volume_classify (cfg : VolumeControlConfig) (t : ℚ) (e : ExtractionResult)
    (pinch_distance : ℚ) (s : VolumeState) : VolumeState × VolumeResult :=
  match get_preferred_hand cfg e with
  | Option.none =>
      (s, { gesture_type := GestureType.none, confidence := 0
            volume_level := s.current_volume, is_muted := s.is_muted })
  | Option.some hand =>
      if hand.landmarks.length < 21 then
        (s, { gesture_type := GestureType.none, confidence := 0
              volume_level := s.current_volume, is_muted := s.is_muted })
      else
        let s1 : VolumeState := { s with last_pinch_distance := pinch_distance }
        if cfg.mute_enabled && check_fist hand.landmarks then
          handle_fist cfg t hand.confidence s1
        else
          let pinch := calculate_pinch_state cfg pinch_distance hand
          let newVol :=
            if cfg.smoothing_enabled then
              smooth_volume cfg s1.current_volume pinch.mapped_volume
            else pinch.mapped_volume
          let s2 : VolumeState := { s1 with current_volume := newVol }
          let gesture :=
            if pinch.is_pinched then GestureType.pinch else GestureType.none
          (s2, { gesture_type := gesture, confidence := hand.confidence
                 volume_level := newVol, is_muted := s2.is_muted })

/-- Feed the classifier a sequence of frames, each given as
(time, extraction, pinch distance). -/
def volume_run (cfg : VolumeControlConfig) (s : VolumeState) :
    List (ℚ × ExtractionResult × ℚ) → VolumeState × List VolumeResult
  | [] => (s, [])
  | (t, e, d) :: rest =>
      let step := volume_classify cfg t e d s
      let r := volume_run cfg step.1 rest
      (r.1, step.2 :: r.2)

/-- A hand whose 21 landmarks all coincide: every non-thumb tip is at its
PIP height, so `_check_fist` reports a fist. -/
def fist_hand : HandLandmarks :=
  { hand_label := "Right"
    landmarks := List.replicate 21 ⟨0, 0, 0⟩
    confidence := 9 / 10 }

/-- An extraction containing only `fist_hand`. -/
def fist_extraction : ExtractionResult :=
  { hands := [fist_hand], model_confidence := 9 / 10 }

lemma get_preferred_hand_singleton (cfg : VolumeControlConfig)
    (e : ExtractionResult) (hand : HandLandmarks) (h : e.hands = [hand]) :
    get_preferred_hand cfg e = Option.some hand := by
  simp only [get_preferred_hand, ExtractionResult.hands_detected, h,
    List.length_cons, List.length_nil]
  norm_num
  by_cases hAny : cfg.preferred_hand = "Any"
  · simp [hAny]
  · by_cases hb : hand.hand_label = cfg.preferred_hand
    · simp [hAny, hb]
    · simp [hAny, hb]

/-- On a fist frame (single hand, full landmark set, mute enabled),
`classify` defers to `_handle_fist`. -/
lemma volume_classify_fist (cfg : VolumeControlConfig) (t : ℚ)
    (e : ExtractionResult) (dist : ℚ) (s : VolumeState) (hand : HandLandmarks)
    (h : e.hands = [hand]) (hlen : 21 ≤ hand.landmarks.length)
    (hmute : cfg.mute_enabled = true) (hfist : check_fist hand.landmarks = true) :
    volume_classify cfg t e dist s =
      handle_fist cfg t hand.confidence { s with last_pinch_distance := dist } := by
  simp only [volume_classify, get_preferred_hand_singleton cfg e hand h]
  rw [if_neg (Nat.not_lt.mpr hlen), if_pos (by rw [hmute, hfist]; rfl)]

/-- A continuously held fist, sampled at times `t`, `t + d`, `t + d`,
`t + 2d` with `d` at least the mute hold threshold, toggles mute on the
second and on the fourth frame: `_handle_fist` clears the hold timer after
each toggle, so it restarts at the next fist frame. -/
lemma volume_fist_run_pattern (cfg : VolumeControlConfig)
    (e : ExtractionResult) (hand : HandLandmarks) (t d dist : ℚ)
    (h : e.hands = [hand]) (hlen : 21 ≤ hand.landmarks.length)
    (hmute : cfg.mute_enabled = true) (hfist : check_fist hand.landmarks = true)
    (hhold : 0 < cfg.mute_hold_duration_ms)
    (hd : cfg.mute_hold_duration_ms ≤ d * 1000) :
    ((volume_run cfg {} [(t, e, dist), (t + d, e, dist), (t + d, e, dist),
        (t + 2 * d, e, dist)]).2.map VolumeResult.mute_toggled) =
      [false, true, false, true] := by
  have hcf : ∀ (tt : ℚ) (s : VolumeState),
      volume_classify cfg tt e dist s =
        handle_fist cfg tt hand.confidence { s with last_pinch_distance := dist } :=
    fun tt s => volume_classify_fist cfg tt e dist s hand h hlen hmute hfist
  have h1 : handle_fist cfg t hand.confidence
      ⟨1 / 2, Option.none, false, dist⟩ =
      (⟨1 / 2, Option.some t, false, dist⟩,
       ⟨GestureType.fist, hand.confidence, 1 / 2, false, false, Option.none⟩) := by
    simp only [handle_fist, Option.getD_none]
    rw [if_neg (by rw [sub_self, zero_mul]; exact not_le.mpr hhold)]
  have h2 : handle_fist cfg (t + d) hand.confidence
      ⟨1 / 2, Option.some t, false, dist⟩ =
      (⟨1 / 2, Option.none, true, dist⟩,
       ⟨GestureType.fist, hand.confidence, 1 / 2, true, true, Option.none⟩) := by
    simp only [handle_fist, Option.getD_some]
    rw [if_pos (by rw [add_sub_cancel_left]; exact hd)]
    rfl
  have h3 : handle_fist cfg (t + d) hand.confidence
      ⟨1 / 2, Option.none, true, dist⟩ =
      (⟨1 / 2, Option.some (t + d), true, dist⟩,
       ⟨GestureType.fist, hand.confidence, 1 / 2, true, false, Option.none⟩) := by
    simp only [handle_fist, Option.getD_none]
    rw [if_neg (by rw [sub_self, zero_mul]; exact not_le.mpr hhold)]
  have h4 : handle_fist cfg (t + 2 * d) hand.confidence
      ⟨1 / 2, Option.some (t + d), true, dist⟩ =
      (⟨1 / 2, Option.none, false, dist⟩,
       ⟨GestureType.fist, hand.confidence, 1 / 2, false, true, Option.none⟩) := by
    simp only [handle_fist, Option.getD_some]
    rw [if_pos (by rw [show t + 2 * d - (t + d) = d from by ring]; exact hd)]
    rfl
  simp only [volume_run, hcf, h1, h2, h3, h4, List.map_cons, List.map_nil]

/-- C4, counterexample to the claim as stated: a fist held continuously
(default configuration, frames at 0 s, 1 s, 1 s and 2 s) produces two
`mute_toggled=true` emissions, not exactly one — the second fires after a
further second of holding the same fist. -/
theorem C4_second_toggle_fires :
    ((volume_run {} {} [((0 : ℚ), fist_extraction, 1 / 10),
        (1, fist_extraction, 1 / 10), (1, fist_extraction, 1 / 10),
        (2, fist_extraction, 1 / 10)]).2.map VolumeResult.mute_toggled) =
      [false, true, false, true] ∧
    ¬ (((volume_run {} {} [((0 : ℚ), fist_extraction, 1 / 10),
        (1, fist_extraction, 1 / 10), (1, fist_extraction, 1 / 10),
        (2, fist_extraction, 1 / 10)]).2.map VolumeResult.mute_toggled).count
      true ≤ 1) := by
  have h := volume_fist_run_pattern {} fist_extraction fist_hand 0 1 (1 / 10)
    rfl (by decide) rfl (by decide)
    (by show (0 : ℚ) < 1000; norm_num) (by show (1000 : ℚ) ≤ 1 * 1000; norm_num)
  have e1 : (0 : ℚ) + 1 = 1 := by norm_num
  have e2 : (0 : ℚ) + 2 * 1 = 2 := by norm_num
  rw [e1, e2] at h
  exact ⟨h, by rw [h]; decide⟩

/-- C4 (amended): while a fist is held continuously, `mute_toggled=true`
fires once per `mute_hold_duration_ms` of holding, not exactly once per
sustained fist: the first toggle fires when the hold reaches the threshold,
the timer then restarts at the next fist frame, and holding for a further
threshold period fires another toggle. -/
theorem C4_mute_toggle_repeats (cfg : VolumeControlConfig)
    (e : ExtractionResult) (hand : HandLandmarks) (t d dist : ℚ)
    (h : e.hands = [hand]) (hlen : 21 ≤ hand.landmarks.length)
    (hmute : cfg.mute_enabled = true) (hfist : check_fist hand.landmarks = true)
    (hhold : 0 < cfg.mute_hold_duration_ms)
    (hd : cfg.mute_hold_duration_ms ≤ d * 1000) :
    ((volume_run cfg {} [(t, e, dist), (t + d, e, dist), (t + d, e, dist),
        (t + 2 * d, e, dist)]).2.map VolumeResult.mute_toggled) =
      [false, true, false, true] :=
  volume_fist_run_pattern cfg e hand t d dist h hlen hmute hfist hhold hd

/-- Witness for C4: defaults, the all-coincident fist hand, frames at
0 s, 1 s, 1 s, 2 s. -/
theorem C4_mute_toggle_repeats_witness :
    fist_extraction.hands = [fist_hand] ∧
    21 ≤ fist_hand.landmarks.length ∧
    ({} : VolumeControlConfig).mute_enabled = true ∧
    check_fist fist_hand.landmarks = true ∧
    (0 : ℚ) < ({} : VolumeControlConfig).mute_hold_duration_ms ∧
    ({} : VolumeControlConfig).mute_hold_duration_ms ≤ (1 : ℚ) * 1000 ∧
    ((volume_run {} {} [((0 : ℚ), fist_extraction, 1 / 10),
        ((0 : ℚ) + 1, fist_extraction, 1 / 10),
        ((0 : ℚ) + 1, fist_extraction, 1 / 10),
        ((0 : ℚ) + 2 * 1, fist_extraction, 1 / 10)]).2.map
      VolumeResult.mute_toggled) = [false, true, false, true] :=
  ⟨rfl, by decide, rfl, by decide,
   by show (0 : ℚ) < 1000; norm_num,
   by show (1000 : ℚ) ≤ 1 * 1000; norm_num,
   C4_mute_toggle_repeats {} fist_extraction fist_hand 0 1 (1 / 10)
     rfl (by decide) rfl (by decide)
     (by show (0 : ℚ) < 1000; norm_num) (by show (1000 : ℚ) ≤ 1 * 1000; norm_num)⟩

/-- A hand whose index PIP (landmark 6) sits below the index tip, so
`_check_fist` does not report a fist. -/
def open_hand : HandLandmarks :=
  { hand_label := "Right"
    landmarks := (List.replicate 21 (⟨0, 0, 0⟩ : Landmark)).set 6 ⟨0, 1, 0⟩
    confidence := 9 / 10 }

/-- An extraction containing only `open_hand`. -/
def open_extraction : ExtractionResult :=
  { hands := [open_hand], model_confidence := 9 / 10 }

/-- On a non-fist frame (single hand, full landmark set), `classify` maps
the pinch distance to a volume, smooths it when smoothing is enabled, and
emits the smoothed value as `volume_level`. -/
lemma volume_classify_nofist (cfg : VolumeControlConfig) (t : ℚ)
    (e : ExtractionResult) (dist : ℚ) (s : VolumeState) (hand : HandLandmarks)
    (h : e.hands = [hand]) (hlen : 21 ≤ hand.landmarks.length)
    (hnf : (cfg.mute_enabled && check_fist hand.landmarks) = false) :
    volume_classify cfg t e dist s =
      ({ s with
          last_pinch_distance := dist,
          current_volume :=
            if cfg.smoothing_enabled then
              smooth_volume cfg s.current_volume
                (calculate_pinch_state cfg dist hand).mapped_volume
            else (calculate_pinch_state cfg dist hand).mapped_volume },
       { gesture_type :=
           if (calculate_pinch_state cfg dist hand).is_pinched then
             GestureType.pinch
           else GestureType.none
         confidence := hand.confidence
         volume_level :=
           if cfg.smoothing_enabled then
             smooth_volume cfg s.current_volume
               (calculate_pinch_state cfg dist hand).mapped_volume
           else (calculate_pinch_state cfg dist hand).mapped_volume
         is_muted := s.is_muted }) := by
  simp only [volume_classify, get_preferred_hand_singleton cfg e hand h]
  rw [if_neg (Nat.not_lt.mpr hlen), if_neg (by rw [hnf]; simp)]

/-- Under the default configuration and the fresh state (prior volume 1/2),
the emitted `volume_level` for a frame with pinch distance `dist` is the
exponentially smoothed value with α = 3/10. -/
lemma volume_emitted_default (dist : ℚ) :
    (volume_classify {} 0 open_extraction dist {}).2.volume_level =
      3 / 10 * (calculate_pinch_state {} dist open_hand).mapped_volume
        + (1 - 3 / 10) * (1 / 2) := by
  rw [volume_classify_nofist {} 0 open_extraction dist {} open_hand rfl
    (by decide) (by decide)]
  rfl

lemma mapped_volume_003 :
    (calculate_pinch_state {} (3 / 100) open_hand).mapped_volume = 0 := by
  simp only [calculate_pinch_state]
  norm_num [min_def, max_def]

lemma mapped_volume_009 :
    (calculate_pinch_state {} (9 / 100) open_hand).mapped_volume = 1 / 2 := by
  simp only [calculate_pinch_state]
  norm_num [min_def, max_def]

lemma mapped_volume_015 :
    (calculate_pinch_state {} (3 / 20) open_hand).mapped_volume = 1 := by
  simp only [calculate_pinch_state]
  norm_num [min_def, max_def]

/-- C6, counterexample to the claim as stated: with smoothing enabled
(α = 0.3) and prior volume 0.5, a frame at pinch distance 0.03 emits
`volume_level` 0.35, not 0.0 — the exponential smoothing keeps the emitted
value away from the endpoint on a single frame. -/
theorem C6_endpoint_not_reached :
    (volume_classify {} 0 open_extraction (3 / 100) {}).2.volume_level = 7 / 20 ∧
    (7 / 20 : ℚ) ≠ 0 := by
  rw [volume_emitted_default, mapped_volume_003]
  constructor
  · norm_num
  · norm_num

/-- C6 (amended): under the default configuration the clamped linear
mapping sends pinch distances 0.03, 0.09, 0.15 to mapped volumes 0.0, 0.5,
1.0; with smoothing enabled (α = 0.3) and prior volume 0.5, the emitted
`volume_level` on a single frame is 0.35, 0.5 (within ±0.01 of 0.5) and
0.65 respectively. -/
theorem C6_volume_mapping :
    (calculate_pinch_state {} (3 / 100) open_hand).mapped_volume = 0 ∧
    (calculate_pinch_state {} (9 / 100) open_hand).mapped_volume = 1 / 2 ∧
    (calculate_pinch_state {} (3 / 20) open_hand).mapped_volume = 1 ∧
    (volume_classify {} 0 open_extraction (3 / 100) {}).2.volume_level = 7 / 20 ∧
    (volume_classify {} 0 open_extraction (9 / 100) {}).2.volume_level = 1 / 2 ∧
    (volume_classify {} 0 open_extraction (3 / 20) {}).2.volume_level = 13 / 20 ∧
    |(volume_classify {} 0 open_extraction (9 / 100) {}).2.volume_level
      - 1 / 2| ≤ 1 / 100 := by
  refine ⟨mapped_volume_003, mapped_volume_009, mapped_volume_015, ?_, ?_, ?_, ?_⟩
  · rw [volume_emitted_default, mapped_volume_003]; norm_num
  · rw [volume_emitted_default, mapped_volume_009]; norm_num
  · rw [volume_emitted_default, mapped_volume_015]; norm_num
  · rw [volume_emitted_default, mapped_volume_009]; norm_num

/-! ## One-Euro filter (features/virtual_mouse/filters.py)

Python floats are modelled as exact rationals; `math.pi` is modelled by the
exact value of the IEEE-754 double that `math.pi` denotes. -/

/-- The IEEE-754 double value of `math.pi`, as an exact rational. -/
def math_pi : ℚ := 884279719003555 / 281474976710656

/-- `LowPassFilter` state: `_y` is the last raw input, `_s` the smoothed
value; both are `None` after `__init__`/`reset` and set together by
`filter`. -/
structure LowPassFilter where
  y : Option ℚ := Option.none
  s : Option ℚ := Option.none
  deriving DecidableEq, Repr

/-- `LowPassFilter.filter` (filters.py 24-35) with the alpha argument
supplied: the first sample passes through, later samples are exponentially
smoothed.  (The `some`/`none` mixed branch is unreachable: `_y` and `_s`
are always set together.) -/
def low_pass_step (lp : LowPassFilter) (value : ℚ) (alpha : ℚ) :
    LowPassFilter × ℚ :=
  let s :=
    match lp.y, lp.s with
    | Option.none, _ => value
    | Option.some _, Option.none => value
    | Option.some _, Option.some s0 => alpha * value + (1 - alpha) * s0
  ({ y := Option.some value, s := Option.some s }, s)

/-- `OneEuroFilter` state and parameters (filters.py 64-79). -/
structure OneEuroFilter where
  freq : ℚ := 30
  min_cutoff : ℚ := 1
  beta : ℚ := 7 / 1000
  d_cutoff : ℚ := 1
  x_filter : LowPassFilter := {}
  dx_filter : LowPassFilter := {}
  last_time : Option ℚ := Option.none
  deriving DecidableEq, Repr

/-- `OneEuroFilter._alpha` (filters.py 81-86). -/
def filter_alpha (cutoff freq : ℚ) : ℚ :=
  let tau := 1 / (2 * math_pi * cutoff)
  let te := 1 / freq
  1 / (1 + tau / te)

/-- The effective frequency of a `filter` call (filters.py 99-103): the
reciprocal of the time delta when it is positive, the stored frequency
otherwise. -/
def one_euro_freq (f : OneEuroFilter) (timestamp : ℚ) : ℚ :=
  match f.last_time with
  | Option.some t0 =>
      if 0 < timestamp - t0 then 1 / (timestamp - t0) else f.freq
  | Option.none => f.freq

/-- `prev_x` of a `filter` call (filters.py 108): the last raw input,
falling back to the current input on the first sample. -/
def one_euro_prev (f : OneEuroFilter) (x : ℚ) : ℚ :=
  match f.x_filter.y with
  | Option.some y0 => y0
  | Option.none => x

/-- The derivative low-pass step of a `filter` call (filters.py 109-113):
`dx = (x - prev_x) * freq` filtered with `alpha(d_cutoff, freq)`. -/
def one_euro_edx (f : OneEuroFilter) (x timestamp : ℚ) :
    LowPassFilter × ℚ :=
  low_pass_step f.dx_filter ((x - one_euro_prev f x) * one_euro_freq f timestamp)
    (filter_alpha f.d_cutoff (one_euro_freq f timestamp))

/-- The dynamic cutoff of a `filter` call (filters.py 116):
`min_cutoff + beta * |edx|`. -/
def one_euro_cutoff (f : OneEuroFilter) (x timestamp : ℚ) : ℚ :=
  f.min_cutoff + f.beta * |(one_euro_edx f x timestamp).2|

/-- `OneEuroFilter.filter` (filters.py 88-120) for an explicitly supplied
positive timestamp (the `timestamp or time.time()` fallback never fires for
positive timestamps): filter the signal with `alpha(cutoff, freq)` and
store the updated sub-filter states. -/
def one_euro_step (f : OneEuroFilter) (x : ℚ) (timestamp : ℚ) :
    OneEuroFilter × ℚ :=
  let xstep := low_pass_step f.x_filter x
    (filter_alpha (one_euro_cutoff f x timestamp) (one_euro_freq f timestamp))
  ({ f with
      freq := one_euro_freq f timestamp
      x_filter := xstep.1
      dx_filter := (one_euro_edx f x timestamp).1
      last_time := Option.some timestamp },
   xstep.2)

/-- Feed the filter a list of (value, timestamp) samples. -/
def one_euro_run (f : OneEuroFilter) : List (ℚ × ℚ) → OneEuroFilter × List ℚ
  | [] => (f, [])
  | (x, t) :: rest =>
      let step := one_euro_step f x t
      let r := one_euro_run step.1 rest
      (r.1, step.2 :: r.2)

/-- `OneEuroFilter2D` (filters.py 129-169): two independent 1-D filters
sharing the timestamp. -/
structure OneEuroFilter2D where
  filter_x : OneEuroFilter := {}
  filter_y : OneEuroFilter := {}
  deriving DecidableEq, Repr

/-- `OneEuroFilter2D.filter`. -/
def one_euro_2d_step (f : OneEuroFilter2D) (x y timestamp : ℚ) :
    OneEuroFilter2D × ℚ × ℚ :=
  let sx := one_euro_step f.filter_x x timestamp
  let sy := one_euro_step f.filter_y y timestamp
  (⟨sx.1, sy.1⟩, sx.2, sy.2)

/-! ## Virtual-mouse classifier (features/virtual_mouse/classifier.py)

The pinch test `sqrt(dx² + dy²) < click_threshold` is encoded without a
square root as `dx² + dy² < click_threshold²` (equivalent, the threshold
being non-negative).  Python's `int()` truncation toward zero is `py_int`. -/

/-- `VirtualMouseConfig` defaults (features/virtual_mouse/config.py).  The
source auto-detects the screen size when `screen_width`/`screen_height` are
`None`; the constructor fallback 1920×1080 is used here. -/
structure VirtualMouseConfig where
  min_confidence : ℚ := 4 / 5
  screen_width : ℚ := 1920
  screen_height : ℚ := 1080
  screen_margin : ℚ := 50
  gesture_zone_x : ℚ × ℚ := (1 / 5, 4 / 5)
  gesture_zone_y : ℚ × ℚ := (1 / 10, 9 / 10)
  smoothing_enabled : Bool := true
  smoothing_min_cutoff : ℚ := 1
  smoothing_beta : ℚ := 7 / 1000
  smoothing_d_cutoff : ℚ := 1
  click_threshold : ℚ := 35 / 1000
  double_click_interval_ms : ℚ := 400
  drag_start_delay_ms : ℚ := 200
  preferred_hand : String := "Right"
  require_pointing_gesture : Bool := true
  deriving DecidableEq, Repr

/-- `MouseState` enum. -/
inductive MouseState where
  | idle
  | moving
  | clicking
  | dragging
  deriving DecidableEq, Repr

/-- `CursorCommand` dataclass. -/
structure CursorCommand where
  x : ℤ
  y : ℤ
  state : MouseState
  click : Bool := false
  drag : Bool := false
  release : Bool := false
  deriving DecidableEq, Repr

/-- Mutable classifier state (classifier.py `__init__` / `reset`). -/
structure VirtualMouseState where
  filter : OneEuroFilter2D := {}
  state : MouseState := MouseState.idle
  click_start_time : Option ℚ := Option.none
  last_click_time : ℚ := 0
  is_dragging : Bool := false
  last_position : ℤ × ℤ := (0, 0)
  deriving DecidableEq, Repr

/-- Python `int()` truncation toward zero. -/
def py_int (q : ℚ) : ℤ := if 0 ≤ q then ⌊q⌋ else ⌈q⌉

/-- `_check_pointing` (classifier.py 180-188): index up, middle/ring/pinky
down. -/
def check_pointing (landmarks : List Landmark) : Bool :=
  decide ((landmarks.getD 8 default).y < (landmarks.getD 6 default).y) &&
  decide ((landmarks.getD 10 default).y < (landmarks.getD 12 default).y) &&
  decide ((landmarks.getD 14 default).y < (landmarks.getD 16 default).y) &&
  decide ((landmarks.getD 18 default).y < (landmarks.getD 20 default).y)

/-- `_map_to_screen` (classifier.py 190-209). -/
def map_to_screen (cfg : VirtualMouseConfig) (norm_x norm_y : ℚ) : ℚ × ℚ :=
  let zone_x := cfg.gesture_zone_x
  let zone_y := cfg.gesture_zone_y
  let x := max zone_x.1 (min norm_x zone_x.2)
  let y := max zone_y.1 (min norm_y zone_y.2)
  let x1 := (x - zone_x.1) / (zone_x.2 - zone_x.1)
  let y1 := (y - zone_y.1) / (zone_y.2 - zone_y.1)
  let margin := cfg.screen_margin
  (margin + x1 * (cfg.screen_width - 2 * margin),
   margin + y1 * (cfg.screen_height - 2 * margin))

/-- `_update_state` (classifier.py 211-260).  The redundant second
`command.click = True` of the double-click check has no observable effect
beyond the `click` flag already being set. -/
def update_state (cfg : VirtualMouseConfig) (is_pinched : Bool) (x y : ℤ)
    (t : ℚ) (s : VirtualMouseState) : VirtualMouseState × CursorCommand :=
  if is_pinched then
    let start := s.click_start_time.getD t
    let hold := (t - start) * 1000
    if cfg.drag_start_delay_ms ≤ hold ∧ s.is_dragging = false then
      ({ s with
          click_start_time := Option.some start
          is_dragging := true
          state := MouseState.dragging },
       { x := x, y := y, state := MouseState.dragging, drag := true })
    else if s.is_dragging then
      ({ s with click_start_time := Option.some start },
       { x := x, y := y, state := MouseState.dragging, drag := true })
    else
      ({ s with click_start_time := Option.some start },
       { x := x, y := y, state := s.state })
  else
    match s.click_start_time with
    | Option.some start =>
        let hold := (t - start) * 1000
        if s.is_dragging then
          ({ s with
              is_dragging := false
              click_start_time := Option.none
              state := MouseState.moving },
           { x := x, y := y, state := MouseState.moving, release := true })
        else if hold < cfg.drag_start_delay_ms then
          ({ s with
              click_start_time := Option.none
              last_click_time := t
              state := MouseState.moving },
           { x := x, y := y, state := MouseState.moving, click := true })
        else
          ({ s with
              click_start_time := Option.none
              state := MouseState.moving },
           { x := x, y := y, state := MouseState.moving })
    | Option.none =>
        ({ s with state := MouseState.moving },
         { x := x, y := y, state := MouseState.moving })

/-- Run `_update_state` over a sequence of (is_pinched, time) samples; the
cursor position does not influence the click/drag state machine and is
fixed at the origin. -/
def update_run (cfg : VirtualMouseConfig) (s : VirtualMouseState) :
    List (Bool × ℚ) → VirtualMouseState × List CursorCommand
  | [] => (s, [])
  | (p, t) :: rest =>
      let step := update_state cfg p 0 0 t s
      let r := update_run cfg step.1 rest
      (r.1, step.2 :: r.2)

/-- The fields of the `InferenceResult` produced by the virtual-mouse
classifier that the claims mention. -/
structure MouseResult where
  gesture_type : GestureType
  confidence : ℚ
  cursor : ℤ × ℤ
  click : Bool := false
  drag : Bool := false
  release : Bool := false
  finger_count : Option ℕ := Option.none
  deriving DecidableEq, Repr

/-- `_get_tracking_hand` (classifier.py 164-178). -/
def get_tracking_hand (cfg : VirtualMouseConfig) (e : ExtractionResult) :
    Option HandLandmarks :=
  if e.hands_detected = 0 then Option.none
  else if cfg.preferred_hand = "Any" then e.hands.head?
  else
    match e.hands.find? (fun h => h.hand_label == cfg.preferred_hand) with
    | Option.some h => Option.some h
    | Option.none => e.hands.head?

/-- `classify` (classifier.py 92-162).  The pinch comparison is the
squared-distance encoding described in the section comment. -/
def mouse_classify (cfg : VirtualMouseConfig) (t : ℚ) (e : ExtractionResult)
    (s : VirtualMouseState) : VirtualMouseState × MouseResult :=
  match get_tracking_hand cfg e with
  | Option.none =>
      ({ s with state := MouseState.idle },
       { gesture_type := GestureType.none, confidence := 0,
         cursor := s.last_position })
  | Option.some hand =>
      if hand.landmarks.length < 21 then
        ({ s with state := MouseState.idle },
         { gesture_type := GestureType.none, confidence := 0,
           cursor := s.last_position })
      else
        let landmarks := hand.landmarks
        let tracking_point := landmarks.getD 8 default
        let is_pointing := check_pointing landmarks
        if cfg.require_pointing_gesture && !is_pointing then
          ({ s with state := MouseState.idle },
           { gesture_type := GestureType.none, confidence := 0,
             cursor := s.last_position })
        else
          let mapped := map_to_screen cfg tracking_point.x tracking_point.y
          let smoothed :=
            if cfg.smoothing_enabled then
              one_euro_2d_step s.filter mapped.1 mapped.2 t
            else (s.filter, mapped.1, mapped.2)
          let screen_x := py_int smoothed.2.1
          let screen_y := py_int smoothed.2.2
          let s1 := { s with filter := smoothed.1,
                             last_position := (screen_x, screen_y) }
          let thumb_tip := landmarks.getD 4 default
          let index_tip := landmarks.getD 8 default
          let pinch_sq := (thumb_tip.x - index_tip.x) ^ 2
            + (thumb_tip.y - index_tip.y) ^ 2
          let is_pinched := decide (pinch_sq < cfg.click_threshold ^ 2)
          let step := update_state cfg is_pinched screen_x screen_y t s1
          let gesture :=
            if step.2.drag then GestureType.pinch
            else if step.2.click then GestureType.pinch
            else if is_pointing then GestureType.pointing
            else GestureType.none
          (step.1,
           { gesture_type := gesture, confidence := hand.confidence,
             cursor := (screen_x, screen_y), click := step.2.click,
             drag := step.2.drag, release := step.2.release })

/-! ### `_update_state` step lemmas -/

/-- Pinch begins: the hold timer starts, no flag is emitted. -/
lemma update_state_pinch_start (cfg : VirtualMouseConfig) (x y : ℤ) (t : ℚ)
    (s : VirtualMouseState) (h1 : s.click_start_time = Option.none)
    (h2 : s.is_dragging = false) (hpos : 0 < cfg.drag_start_delay_ms) :
    update_state cfg true x y t s =
      ({ s with click_start_time := Option.some t },
       ⟨x, y, s.state, false, false, false⟩) := by
  obtain ⟨f, st, cst, lct, dr, lp⟩ := s
  simp only at h1 h2
  subst h1; subst h2
  simp only [update_state, Option.getD_none, if_true, Bool.false_eq_true,
    if_false, and_true, sub_self, zero_mul]
  rw [if_neg (not_le.mpr hpos)]

/-- Pinch held past the drag delay while not yet dragging: transition to
DRAG, emitting `drag=true`. -/
lemma update_state_drag_transition (cfg : VirtualMouseConfig) (x y : ℤ)
    (t t0 : ℚ) (s : VirtualMouseState)
    (h1 : s.click_start_time = Option.some t0) (h2 : s.is_dragging = false)
    (hge : cfg.drag_start_delay_ms ≤ (t - t0) * 1000) :
    update_state cfg true x y t s =
      ({ s with
          click_start_time := Option.some t0
          is_dragging := true
          state := MouseState.dragging },
       ⟨x, y, MouseState.dragging, false, true, false⟩) := by
  obtain ⟨f, st, cst, lct, dr, lp⟩ := s
  simp only at h1 h2
  subst h1; subst h2
  simp only [update_state, Option.getD_some, if_true, Bool.false_eq_true,
    if_false, and_true]
  rw [if_pos hge]

/-- Pinch continues while dragging: `drag=true` is emitted again. -/
lemma update_state_drag_continue (cfg : VirtualMouseConfig) (x y : ℤ)
    (t t0 : ℚ) (s : VirtualMouseState)
    (h1 : s.click_start_time = Option.some t0) (h2 : s.is_dragging = true) :
    update_state cfg true x y t s =
      ({ s with click_start_time := Option.some t0 },
       ⟨x, y, MouseState.dragging, false, true, false⟩) := by
  obtain ⟨f, st, cst, lct, dr, lp⟩ := s
  simp only at h1 h2
  subst h1; subst h2
  simp only [update_state, Option.getD_some, Bool.true_eq_false, and_false,
    if_false, if_true]

/-- Release while dragging: `release=true`. -/
lemma update_state_release_drag (cfg : VirtualMouseConfig) (x y : ℤ)
    (t t0 : ℚ) (s : VirtualMouseState)
    (h1 : s.click_start_time = Option.some t0) (h2 : s.is_dragging = true) :
    update_state cfg false x y t s =
      ({ s with
          is_dragging := false
          click_start_time := Option.none
          state := MouseState.moving },
       ⟨x, y, MouseState.moving, false, false, true⟩) := by
  obtain ⟨f, st, cst, lct, dr, lp⟩ := s
  simp only at h1 h2
  subst h1; subst h2
  simp only [update_state, Bool.false_eq_true, if_false, if_true]

/-- Release before the drag delay while not dragging: a single
`click=true`. -/
lemma update_state_release_click (cfg : VirtualMouseConfig) (x y : ℤ)
    (t t0 : ℚ) (s : VirtualMouseState)
    (h1 : s.click_start_time = Option.some t0) (h2 : s.is_dragging = false)
    (hlt : (t - t0) * 1000 < cfg.drag_start_delay_ms) :
    update_state cfg false x y t s =
      ({ s with
          click_start_time := Option.none
          last_click_time := t
          state := MouseState.moving },
       ⟨x, y, MouseState.moving, true, false, false⟩) := by
  obtain ⟨f, st, cst, lct, dr, lp⟩ := s
  simp only at h1 h2
  subst h1; subst h2
  simp only [update_state, Bool.false_eq_true, if_false, if_true]
  rw [if_pos hlt]

/-- A pinch that starts at `t1` and is released at `t2`, before the drag
delay, yields a single click command and no drag. -/
lemma mouse_click_pattern (cfg : VirtualMouseConfig) (t1 t2 : ℚ)
    (hpos : 0 < cfg.drag_start_delay_ms)
    (hlt : (t2 - t1) * 1000 < cfg.drag_start_delay_ms) :
    ((update_run cfg {} [(true, t1), (false, t2)]).2.map
        (fun c => (c.click, c.drag, c.release))) =
      [(false, false, false), (true, false, false)] := by
  have h1 := update_state_pinch_start cfg 0 0 t1 ({} : VirtualMouseState)
    rfl rfl hpos
  have h2 := update_state_release_click cfg 0 0 t2 t1
    { ({} : VirtualMouseState) with click_start_time := Option.some t1 }
    rfl rfl hlt
  simp only [update_run, h1, h2, List.map_cons, List.map_nil]

/-- A pinch held past the drag delay emits `drag=true` at the transition
AND on every later pinched frame, then `release=true` on release. -/
lemma mouse_drag_pattern (cfg : VirtualMouseConfig) (t1 t2 t3 t4 : ℚ)
    (hpos : 0 < cfg.drag_start_delay_ms)
    (hge : cfg.drag_start_delay_ms ≤ (t2 - t1) * 1000) :
    ((update_run cfg {} [(true, t1), (true, t2), (true, t3),
        (false, t4)]).2.map (fun c => (c.click, c.drag, c.release))) =
      [(false, false, false), (false, true, false), (false, true, false),
       (false, false, true)] := by
  have h1 := update_state_pinch_start cfg 0 0 t1 ({} : VirtualMouseState)
    rfl rfl hpos
  have h2 := update_state_drag_transition cfg 0 0 t2 t1
    { ({} : VirtualMouseState) with click_start_time := Option.some t1 }
    rfl rfl hge
  have h3 := update_state_drag_continue cfg 0 0 t3 t1
    { ({} : VirtualMouseState) with
        click_start_time := Option.some t1
        is_dragging := true
        state := MouseState.dragging }
    rfl rfl
  have h4 := update_state_release_drag cfg 0 0 t4 t1
    { ({} : VirtualMouseState) with
        click_start_time := Option.some t1
        is_dragging := true
        state := MouseState.dragging }
    rfl rfl
  simp only [update_run, h1, h2, h3, h4, List.map_cons, List.map_nil]

/-- C5, counterexample to the claim as stated: a pinch held past the drag
delay (default 200 ms; pinched frames at 0, 0.25 s, 0.3 s, released at
0.4 s) emits `drag=true` twice, not exactly once — `_update_state` re-emits
`drag=true` on every frame while `_is_dragging` holds. -/
theorem C5_drag_emitted_repeatedly :
    ((update_run {} {} [(true, (0 : ℚ)), (true, 1 / 4), (true, 3 / 10),
        (false, 2 / 5)]).2.map (fun c => (c.click, c.drag, c.release))) =
      [(false, false, false), (false, true, false), (false, true, false),
       (false, false, true)] ∧
    ¬ (((update_run {} {} [(true, (0 : ℚ)), (true, 1 / 4), (true, 3 / 10),
        (false, 2 / 5)]).2.map CursorCommand.drag).count true ≤ 1) := by
  have h := mouse_drag_pattern {} 0 (1 / 4) (3 / 10) (2 / 5)
    (by show (0 : ℚ) < 200; norm_num)
    (by show (200 : ℚ) ≤ (1 / 4 - 0) * 1000; norm_num)
  refine ⟨h, ?_⟩
  have hdrag : ((update_run {} {} [(true, (0 : ℚ)), (true, 1 / 4),
      (true, 3 / 10), (false, 2 / 5)]).2.map CursorCommand.drag) =
      [false, true, true, false] := by
    have h2 := congrArg (List.map (fun p => p.2.1)) h
    simpa [List.map_map, Function.comp] using h2
  rw [hdrag]
  decide

/-- C5 (amended): a pinch released before `drag_start_delay_ms` yields
`click=true` exactly once and never `drag=true`; a pinch held past the
delay yields `drag=true` at the transition to DRAG and again on every
subsequent pinched frame (not exactly once), and `release=true` on
release. -/
theorem C5_click_vs_drag (cfg : VirtualMouseConfig) (t1 t2 u1 u2 u3 u4 : ℚ)
    (hpos : 0 < cfg.drag_start_delay_ms)
    (hlt : (t2 - t1) * 1000 < cfg.drag_start_delay_ms)
    (hge : cfg.drag_start_delay_ms ≤ (u2 - u1) * 1000) :
    ((update_run cfg {} [(true, t1), (false, t2)]).2.map
        (fun c => (c.click, c.drag, c.release))) =
      [(false, false, false), (true, false, false)] ∧
    ((update_run cfg {} [(true, u1), (true, u2), (true, u3),
        (false, u4)]).2.map (fun c => (c.click, c.drag, c.release))) =
      [(false, false, false), (false, true, false), (false, true, false),
       (false, false, true)] :=
  ⟨mouse_click_pattern cfg t1 t2 hpos hlt,
   mouse_drag_pattern cfg u1 u2 u3 u4 hpos hge⟩

/-- Witness for C5: default configuration, click scenario 0→0.15 s, drag
scenario pinched at 0, 0.25 s, 0.3 s, released at 0.4 s. -/
theorem C5_click_vs_drag_witness :
    (0 : ℚ) < ({} : VirtualMouseConfig).drag_start_delay_ms ∧
    ((3 / 20 : ℚ) - 0) * 1000 < ({} : VirtualMouseConfig).drag_start_delay_ms ∧
    ({} : VirtualMouseConfig).drag_start_delay_ms ≤ ((1 / 4 : ℚ) - 0) * 1000 ∧
    (((update_run {} {} [(true, (0 : ℚ)), (false, 3 / 20)]).2.map
        (fun c => (c.click, c.drag, c.release))) =
      [(false, false, false), (true, false, false)] ∧
     ((update_run {} {} [(true, (0 : ℚ)), (true, 1 / 4), (true, 3 / 10),
        (false, 2 / 5)]).2.map (fun c => (c.click, c.drag, c.release))) =
      [(false, false, false), (false, true, false), (false, true, false),
       (false, false, true)]) :=
  ⟨by show (0 : ℚ) < 200; norm_num,
   by show ((3 / 20 : ℚ) - 0) * 1000 < 200; norm_num,
   by show (200 : ℚ) ≤ ((1 / 4 : ℚ) - 0) * 1000; norm_num,
   C5_click_vs_drag {} 0 (3 / 20) 0 (1 / 4) (3 / 10) (2 / 5)
     (by show (0 : ℚ) < 200; norm_num)
     (by show ((3 / 20 : ℚ) - 0) * 1000 < 200; norm_num)
     (by show (200 : ℚ) ≤ ((1 / 4 : ℚ) - 0) * 1000; norm_num)⟩

/-! ## Finger-count classifier
(pipelines/inference/classifiers/finger_count.py) -/

/-- `FingerCountConfig` (finger_count.py 20-31). -/
structure FingerCountConfig where
  finger_up_threshold : ℚ := 1 / 20
  enable_thumb : Bool := true
  smoothing_frames : ℕ := 3
  deriving DecidableEq, Repr

/-- `FingerStates` (core/types.py 156-177). -/
structure FingerStates where
  thumb : Bool := false
  index : Bool := false
  middle : Bool := false
  ring : Bool := false
  pinky : Bool := false
  deriving DecidableEq, Repr

/-- `FingerStates.count`: number of raised fingers. -/
def FingerStates.count (s : FingerStates) : ℕ :=
  (if s.thumb then 1 else 0) + (if s.index then 1 else 0)
    + (if s.middle then 1 else 0) + (if s.ring then 1 else 0)
    + (if s.pinky then 1 else 0)

/-- The classifier's temporal-smoothing history (`self._history`). -/
structure FingerCountState where
  history : List ℕ := []
  deriving DecidableEq, Repr

/-- `_get_finger_states` (finger_count.py 142-185). -/
def get_finger_states (cfg : FingerCountConfig) (hand : HandLandmarks) :
    FingerStates :=
  let lms := hand.landmarks
  if lms.length < 21 then {}
  else
    let is_right := hand.hand_label == "Right"
    let thumb_up :=
      if cfg.enable_thumb then
        if is_right then
          decide ((lms.getD 4 default).x < (lms.getD 3 default).x)
        else
          decide ((lms.getD 3 default).x < (lms.getD 4 default).x)
      else false
    { thumb := thumb_up
      index := decide ((lms.getD 8 default).y < (lms.getD 6 default).y)
      middle := decide ((lms.getD 12 default).y < (lms.getD 10 default).y)
      ring := decide ((lms.getD 16 default).y < (lms.getD 14 default).y)
      pinky := decide ((lms.getD 20 default).y < (lms.getD 18 default).y) }

/-- Python's `max(set(history), key=history.count)`: a value of the list
with maximal multiplicity.  CPython's tie order (set iteration order) is
unspecified; modelled as the first distinct value attaining the maximal
count.  No claim depends on the tie order. -/
def list_mode (l : List ℕ) (dflt : ℕ) : ℕ :=
  (l.dedup.argmax fun v => l.count v).getD dflt

/-- `_smooth_count` (finger_count.py 204-216): append to the history, keep
the last `smoothing_frames` samples, return the mode once the history is
full and the raw count before that. -/
def smooth_count (cfg : FingerCountConfig) (s : FingerCountState) (count : ℕ) :
    FingerCountState × ℕ :=
  let hist1 := s.history ++ [count]
  let hist2 := if cfg.smoothing_frames < hist1.length then hist1.drop 1 else hist1
  (⟨hist2⟩, if cfg.smoothing_frames ≤ hist2.length then list_mode hist2 count
            else count)

/-- `_detect_pose` (finger_count.py 218-260). -/
def detect_pose (cfg : FingerCountConfig) (hands : List HandLandmarks) :
    GestureType :=
  match hands.head? with
  | Option.none => GestureType.none
  | Option.some hand =>
      let st := get_finger_states cfg hand
      if !(st.thumb || st.index || st.middle || st.ring || st.pinky) then
        GestureType.fist
      else if st.thumb && st.index && st.middle && st.ring && st.pinky then
        GestureType.openPalm
      else if st.index && st.middle && !st.ring && !st.pinky && !st.thumb then
        GestureType.peace
      else if st.thumb && !st.index && !st.middle && !st.ring && !st.pinky then
        GestureType.thumbsUp
      else if st.index && !st.middle && !st.ring && !st.pinky then
        GestureType.pointing
      else GestureType.none

/-- `_get_combined_states` (finger_count.py 187-202): OR across hands,
`None` when no hands. -/
def get_combined_states (cfg : FingerCountConfig)
    (hands : List HandLandmarks) : Option FingerStates :=
  if hands.isEmpty then Option.none
  else
    Option.some (hands.foldl
      (fun acc h =>
        let st := get_finger_states cfg h
        { thumb := acc.thumb || st.thumb
          index := acc.index || st.index
          middle := acc.middle || st.middle
          ring := acc.ring || st.ring
          pinky := acc.pinky || st.pinky })
      {})

/-- The fields of the `InferenceResult` produced by the finger-count
classifier that the claims mention. -/
structure FingerCountResult where
  gesture_type : GestureType
  confidence : ℚ
  finger_count : Option ℕ
  finger_states : Option FingerStates
  total_fingers : ℕ
  hands_detected : ℕ
  deriving DecidableEq, Repr

/-- `classify` (finger_count.py 88-140): total raw count over all hands,
temporal smoothing, pose detection; the gesture tag falls back to
`finger_count` when no pose is recognised (also when there are no hands);
confidence is the extraction's model confidence. -/
def finger_count_classify (cfg : FingerCountConfig) (e : ExtractionResult)
    (s : FingerCountState) : FingerCountState × FingerCountResult :=
  let total := (e.hands.map fun h => (get_finger_states cfg h).count).sum
  let sm := smooth_count cfg s total
  let pose := detect_pose cfg e.hands
  let gesture :=
    if pose ≠ GestureType.none then pose else GestureType.fingerCount
  (sm.1,
   { gesture_type := gesture
     confidence := e.model_confidence
     finger_count := Option.some sm.2
     finger_states := get_combined_states cfg e.hands
     total_fingers := sm.2
     hands_detected := e.hands.length })

/-- C7, counterexample to the claim as stated: on an extraction with zero
hands the finger-count classifier emits `gesture_type = finger_count`, not
`none` (`_detect_pose` returns NONE for no hands and `classify` then falls
back to the FINGER_COUNT tag), and the volume classifier leaves the
`finger_count` field unset (`None`) rather than 0. -/
theorem C7_zero_hands_counterexample :
    (finger_count_classify {} { hands := [] } {}).2.gesture_type =
      GestureType.fingerCount ∧
    GestureType.fingerCount ≠ GestureType.none ∧
    (volume_classify {} 0 { hands := [] } 0 {}).2.finger_count = Option.none ∧
    (Option.none : Option ℕ) ≠ Option.some 0 := by
  refine ⟨rfl, by decide, ?_, by decide⟩
  simp [volume_classify, get_preferred_hand, ExtractionResult.hands_detected]

/-- C7 (amended): on any extraction with zero hands, the volume and
virtual-mouse classifiers return `gesture_type = none`, confidence 0 and an
unset (`None`) finger count; the finger-count classifier returns
`gesture_type = finger_count`, confidence equal to the extraction's model
confidence, and (from an empty smoothing history) `finger_count = 0`. -/
theorem C7_zero_hands (e : ExtractionResult) (he : e.hands = [])
    (t dist : ℚ) (vs : VolumeState) (ms : VirtualMouseState) :
    ((volume_classify {} t e dist vs).2.gesture_type = GestureType.none ∧
     (volume_classify {} t e dist vs).2.confidence = 0 ∧
     (volume_classify {} t e dist vs).2.finger_count = Option.none) ∧
    ((mouse_classify {} t e ms).2.gesture_type = GestureType.none ∧
     (mouse_classify {} t e ms).2.confidence = 0 ∧
     (mouse_classify {} t e ms).2.finger_count = Option.none) ∧
    ((finger_count_classify {} e {}).2.gesture_type =
       GestureType.fingerCount ∧
     (finger_count_classify {} e {}).2.confidence = e.model_confidence ∧
     (finger_count_classify {} e {}).2.finger_count = Option.some 0) := by
  have hv : get_preferred_hand {} e = Option.none := by
    simp [get_preferred_hand, ExtractionResult.hands_detected, he]
  have hm : get_tracking_hand {} e = Option.none := by
    simp [get_tracking_hand, ExtractionResult.hands_detected, he]
  refine ⟨?_, ?_, ?_⟩
  · simp [volume_classify, hv]
  · simp only [mouse_classify, hm]
    simp
  · simp [finger_count_classify, smooth_count, detect_pose, he, list_mode]

/-- Witness for C7: the empty extraction. -/
theorem C7_zero_hands_witness :
    ({ hands := [] } : ExtractionResult).hands = [] ∧
    (((volume_classify {} 0 { hands := [] } 0 {}).2.gesture_type =
        GestureType.none ∧
      (volume_classify {} 0 { hands := [] } 0 {}).2.confidence = 0 ∧
      (volume_classify {} 0 { hands := [] } 0 {}).2.finger_count =
        Option.none) ∧
     ((mouse_classify {} 0 { hands := [] } {}).2.gesture_type =
        GestureType.none ∧
      (mouse_classify {} 0 { hands := [] } {}).2.confidence = 0 ∧
      (mouse_classify {} 0 { hands := [] } {}).2.finger_count =
        Option.none) ∧
     ((finger_count_classify {} { hands := [] } {}).2.gesture_type =
        GestureType.fingerCount ∧
      (finger_count_classify {} { hands := [] } {}).2.confidence =
        ({ hands := [] } : ExtractionResult).model_confidence ∧
      (finger_count_classify {} { hands := [] } {}).2.finger_count =
        Option.some 0)) :=
  ⟨rfl, C7_zero_hands { hands := [] } rfl 0 0 {} {}⟩

/-! ## Event dispatcher (pipelines/output/dispatcher.py)

Listeners are identified by natural numbers; whether a listener's call
raises is given by a `fails` predicate (the dispatcher never inspects the
result beyond catching exceptions).  The two topic tables are Python dicts,
modelled as association lists in key-insertion order. -/

/-- Lookup in a `dict[str, list]`. -/
def dict_get (tbl : List (String × List ℕ)) (k : String) :
    Option (List ℕ) :=
  match tbl with
  | [] => Option.none
  | (k', v') :: rest => if k' = k then Option.some v' else dict_get rest k

/-- Update / insert in a `dict[str, list]` (insertion order preserved). -/
def dict_set (tbl : List (String × List ℕ)) (k : String) (v : List ℕ) :
    List (String × List ℕ) :=
  match tbl with
  | [] => [(k, v)]
  | (k', v') :: rest =>
      if k' = k then (k', v) :: rest else (k', v') :: dict_set rest k v

/-- `EventDispatcher`'s four listener tables (dispatcher.py 60-71). -/
structure EventDispatcher where
  listeners : List (String × List ℕ) := []
  async_listeners : List (String × List ℕ) := []
  global_listeners : List ℕ := []
  async_global_listeners : List ℕ := []
  deriving DecidableEq, Repr

/-- The unsubscribe closures returned by the four subscribe operations,
identified by what they capture. -/
inductive UnsubscribeHandle where
  | topic_sync (event_type : String) (l : ℕ)
  | topic_async (event_type : String) (l : ℕ)
  | global_sync (l : ℕ)
  | global_async (l : ℕ)
  deriving DecidableEq, Repr

/-- `add_listener` (dispatcher.py 73-97). -/
def add_listener (d : EventDispatcher) (event_type : String) (l : ℕ) :
    EventDispatcher × UnsubscribeHandle :=
  let cur := (dict_get d.listeners event_type).getD []
  ({ d with listeners := dict_set d.listeners event_type (cur ++ [l]) },
   UnsubscribeHandle.topic_sync event_type l)

/-- `add_async_listener` (dispatcher.py 99-114). -/
def add_async_listener (d : EventDispatcher) (event_type : String) (l : ℕ) :
    EventDispatcher × UnsubscribeHandle :=
  let cur := (dict_get d.async_listeners event_type).getD []
  ({ d with
      async_listeners := dict_set d.async_listeners event_type (cur ++ [l]) },
   UnsubscribeHandle.topic_async event_type l)

/-- `add_global_listener` (dispatcher.py 116-120). -/
def add_global_listener (d : EventDispatcher) (l : ℕ) :
    EventDispatcher × UnsubscribeHandle :=
  ({ d with global_listeners := d.global_listeners ++ [l] },
   UnsubscribeHandle.global_sync l)

/-- `add_async_global_listener` (dispatcher.py 122-129). -/
def add_async_global_listener (d : EventDispatcher) (l : ℕ) :
    EventDispatcher × UnsubscribeHandle :=
  ({ d with
      async_global_listeners := d.async_global_listeners ++ [l] },
   UnsubscribeHandle.global_async l)

/-- Python's `list.remove`: drop the first occurrence, `None` models the
`ValueError` raised when the element is absent. -/
def remove_first : List ℕ → ℕ → Option (List ℕ)
  | [], _ => Option.none
  | x :: xs, l =>
      if x = l then Option.some xs else (remove_first xs l).map (x :: ·)

/-- Calling an unsubscribe handle.  The topic closures are guarded by
`if event_type in self._listeners` (a no-op when the key is absent), then
call `list.remove`, whose `ValueError` propagates to the caller
(`Except.error`).  The global closures call `list.remove` unguarded. -/
def unsubscribe (d : EventDispatcher) (h : UnsubscribeHandle) :
    Except Unit EventDispatcher :=
  match h with
  | UnsubscribeHandle.topic_sync et l =>
      match dict_get d.listeners et with
      | Option.none => Except.ok d
      | Option.some ls =>
          match remove_first ls l with
          | Option.none => Except.error ()
          | Option.some ls' =>
              Except.ok { d with listeners := dict_set d.listeners et ls' }
  | UnsubscribeHandle.topic_async et l =>
      match dict_get d.async_listeners et with
      | Option.none => Except.ok d
      | Option.some ls =>
          match remove_first ls l with
          | Option.none => Except.error ()
          | Option.some ls' =>
              Except.ok
                { d with async_listeners := dict_set d.async_listeners et ls' }
  | UnsubscribeHandle.global_sync l =>
      match remove_first d.global_listeners l with
      | Option.none => Except.error ()
      | Option.some ls => Except.ok { d with global_listeners := ls }
  | UnsubscribeHandle.global_async l =>
      match remove_first d.async_global_listeners l with
      | Option.none => Except.error ()
      | Option.some ls =>
          Except.ok { d with async_global_listeners := ls }

/-- Call every listener of one group in order; a sync listener's exception
is caught per listener (`try/except` around each call), an async group is
awaited with `gather(..., return_exceptions=True)`, so in both cases every
listener runs.  Returns the invocations in order and the failures. -/
def call_each (fails : ℕ → Bool) : List ℕ → List ℕ × List ℕ
  | [] => ([], [])
  | l :: ls =>
      let rest := call_each fails ls
      (l :: rest.1, if fails l then l :: rest.2 else rest.2)

/-- `dispatch` (dispatcher.py 131-165): topic sync listeners, then topic
async listeners, then global sync, then global async.  Returns the listener
invocations in call order together with the collected failures. -/
def dispatch (fails : ℕ → Bool) (d : EventDispatcher) (event_type : String) :
    List ℕ × List ℕ :=
  let sync_part :=
    match dict_get d.listeners event_type with
    | Option.some ls => call_each fails ls
    | Option.none => ([], [])
  let async_part :=
    match dict_get d.async_listeners event_type with
    | Option.some ls => call_each fails ls
    | Option.none => ([], [])
  let gs := call_each fails d.global_listeners
  let ga := call_each fails d.async_global_listeners
  (sync_part.1 ++ async_part.1 ++ gs.1 ++ ga.1,
   sync_part.2 ++ async_part.2 ++ gs.2 ++ ga.2)

lemma call_each_invokes (fails : ℕ → Bool) (ls : List ℕ) :
    (call_each fails ls).1 = ls := by
  induction ls with
  | nil => rfl
  | cons l ls ih => simp [call_each, ih]

/-- C8: every registered listener of the event's type — sync, async, topic
or global — is invoked exactly once per registration, in table order,
regardless of which listeners fail: the invocation sequence does not depend
on the failure behaviour, and a non-failing listener registered once is
called exactly once. -/
theorem C8_failing_listener_isolated (fails fails' : ℕ → Bool)
    (d : EventDispatcher) (et : String) :
    (dispatch fails d et).1 =
      (dict_get d.listeners et).getD [] ++
        (dict_get d.async_listeners et).getD [] ++
        d.global_listeners ++ d.async_global_listeners ∧
    (dispatch fails d et).1 = (dispatch fails' d et).1 ∧
    (∀ l : ℕ, fails l = false →
      (dispatch fails d et).1.count l =
        ((dict_get d.listeners et).getD [] ++
          (dict_get d.async_listeners et).getD [] ++
          d.global_listeners ++ d.async_global_listeners).count l) := by
  have key : ∀ g : ℕ → Bool, (dispatch g d et).1 =
      (dict_get d.listeners et).getD [] ++
        (dict_get d.async_listeners et).getD [] ++
        d.global_listeners ++ d.async_global_listeners := by
    intro g
    simp only [dispatch]
    cases h1 : dict_get d.listeners et <;>
      cases h2 : dict_get d.async_listeners et <;>
        simp [call_each_invokes, List.append_assoc]
  refine ⟨key fails, (key fails).trans (key fails').symm, ?_⟩
  intro l _
  rw [key fails]

/-- Witness for C8: one sync topic listener that fails, one async topic
listener, one global and one async global listener; all four are invoked
once. -/
theorem C8_failing_listener_isolated_witness :
    (dispatch (fun l => l == 0)
      { listeners := [("gesture_detected", [0])]
        async_listeners := [("gesture_detected", [1])]
        global_listeners := [2]
        async_global_listeners := [3] } "gesture_detected").1 =
      (dict_get [("gesture_detected", [0])] "gesture_detected").getD [] ++
        (dict_get [("gesture_detected", [1])] "gesture_detected").getD [] ++
        [2] ++ [3] ∧
    (dispatch (fun l => l == 0)
      { listeners := [("gesture_detected", [0])]
        async_listeners := [("gesture_detected", [1])]
        global_listeners := [2]
        async_global_listeners := [3] } "gesture_detected").1 =
      (dispatch (fun _ => false)
        { listeners := [("gesture_detected", [0])]
          async_listeners := [("gesture_detected", [1])]
          global_listeners := [2]
          async_global_listeners := [3] } "gesture_detected").1 ∧
    (∀ l : ℕ, (fun l => l == 0) l = false →
      (dispatch (fun l => l == 0)
        { listeners := [("gesture_detected", [0])]
          async_listeners := [("gesture_detected", [1])]
          global_listeners := [2]
          async_global_listeners := [3] } "gesture_detected").1.count l =
        ((dict_get [("gesture_detected", [0])] "gesture_detected").getD [] ++
          (dict_get [("gesture_detected", [1])] "gesture_detected").getD [] ++
          [2] ++ [3]).count l) :=
  C8_failing_listener_isolated (fun l => l == 0) (fun _ => false)
    { listeners := [("gesture_detected", [0])]
      async_listeners := [("gesture_detected", [1])]
      global_listeners := [2]
      async_global_listeners := [3] } "gesture_detected"

lemma remove_first_not_mem (ls : List ℕ) (l : ℕ) (h : l ∉ ls) :
    remove_first ls l = Option.none := by
  induction ls with
  | nil => rfl
  | cons x xs ih =>
      simp only [List.mem_cons, not_or] at h
      simp [remove_first, Ne.symm h.1, ih h.2]

lemma remove_first_append_not_mem (ls : List ℕ) (l : ℕ) (h : l ∉ ls) :
    remove_first (ls ++ [l]) l = Option.some ls := by
  induction ls with
  | nil => simp [remove_first]
  | cons x xs ih =>
      simp only [List.mem_cons, not_or] at h
      simp [remove_first, Ne.symm h.1, ih h.2]

lemma dict_get_set_self (tbl : List (String × List ℕ)) (k : String)
    (v : List ℕ) : dict_get (dict_set tbl k v) k = Option.some v := by
  induction tbl with
  | nil => simp [dict_set, dict_get]
  | cons p rest ih =>
      obtain ⟨k', v'⟩ := p
      by_cases h : k' = k
      · simp [dict_set, dict_get, h]
      · simp [dict_set, dict_get, h, ih]

/-- C9, counterexample to the claim as stated: subscribe a single listener,
call the returned unsubscribe handle once (it succeeds, leaving the topic's
list empty), call it a second time — `list.remove` raises `ValueError`
because the listener is no longer in the list.  The handle is therefore not
idempotent. -/
theorem C9_second_unsubscribe_raises_concrete :
    unsubscribe (add_listener {} "gesture_detected" 0).1
        (add_listener {} "gesture_detected" 0).2 =
      Except.ok { listeners := [("gesture_detected", [])] } ∧
    unsubscribe ({ listeners := [("gesture_detected", [])] } :
        EventDispatcher) (add_listener {} "gesture_detected" 0).2 =
      Except.error () := by
  constructor
  · rfl
  · rfl

/-- C9 (amended): an unsubscribe handle is not idempotent.  For a listener
registered once (under a topic via `add_listener`, or globally via
`add_global_listener`), the first call removes the registration and a
second call raises `ValueError`, since `list.remove` is used without
guarding against the listener's absence. -/
theorem C9_unsubscribe_not_idempotent (d : EventDispatcher) (et : String)
    (l : ℕ) (hnot : l ∉ (dict_get d.listeners et).getD [])
    (hnotg : l ∉ d.global_listeners) :
    (∃ d2, unsubscribe (add_listener d et l).1 (add_listener d et l).2 =
        Except.ok d2 ∧
      unsubscribe d2 (add_listener d et l).2 = Except.error ()) ∧
    (∃ d3, unsubscribe (add_global_listener d l).1
        (add_global_listener d l).2 = Except.ok d3 ∧
      unsubscribe d3 (add_global_listener d l).2 = Except.error ()) := by
  constructor
  · have h1 : dict_get
        (dict_set d.listeners et (((dict_get d.listeners et).getD []) ++ [l]))
        et = Option.some (((dict_get d.listeners et).getD []) ++ [l]) :=
      dict_get_set_self d.listeners et _
    have h2 : remove_first (((dict_get d.listeners et).getD []) ++ [l]) l =
        Option.some ((dict_get d.listeners et).getD []) :=
      remove_first_append_not_mem _ l hnot
    have h3 : dict_get
        (dict_set
          (dict_set d.listeners et (((dict_get d.listeners et).getD []) ++ [l]))
          et ((dict_get d.listeners et).getD [])) et =
        Option.some ((dict_get d.listeners et).getD []) :=
      dict_get_set_self _ et _
    have h4 : remove_first ((dict_get d.listeners et).getD []) l =
        Option.none := remove_first_not_mem _ l hnot
    refine ⟨{ (add_listener d et l).1 with
        listeners := dict_set (add_listener d et l).1.listeners et
          ((dict_get d.listeners et).getD []) }, ?_, ?_⟩
    · simp only [add_listener, unsubscribe, h1, h2]
    · simp only [add_listener, unsubscribe, h3, h4]
  · have h2 : remove_first (d.global_listeners ++ [l]) l =
        Option.some d.global_listeners :=
      remove_first_append_not_mem _ l hnotg
    have h4 : remove_first d.global_listeners l = Option.none :=
      remove_first_not_mem _ l hnotg
    refine ⟨{ (add_global_listener d l).1 with
        global_listeners := d.global_listeners }, ?_, ?_⟩
    · simp only [add_global_listener, unsubscribe, h2]
    · simp only [add_global_listener, unsubscribe, h4]

/-- Witness for C9: the empty dispatcher, topic "gesture_detected",
listener 0. -/
theorem C9_unsubscribe_not_idempotent_witness :
    (0 ∉ ((dict_get ({} : EventDispatcher).listeners
        "gesture_detected").getD [])) ∧
    (0 ∉ ({} : EventDispatcher).global_listeners) ∧
    ((∃ d2, unsubscribe (add_listener {} "gesture_detected" 0).1
        (add_listener {} "gesture_detected" 0).2 = Except.ok d2 ∧
      unsubscribe d2 (add_listener {} "gesture_detected" 0).2 =
        Except.error ()) ∧
     (∃ d3, unsubscribe (add_global_listener {} 0).1
        (add_global_listener {} 0).2 = Except.ok d3 ∧
      unsubscribe d3 (add_global_listener {} 0).2 = Except.error ())) :=
  ⟨by decide, by decide,
   C9_unsubscribe_not_idempotent {} "gesture_detected" 0 (by decide)
     (by decide)⟩

/-! ### One-Euro filter bounds (claim C10) -/

/-- The running maximum of `|x|` over a sample list (0 for the empty
list). -/
def max_abs (l : List (ℚ × ℚ)) : ℚ :=
  l.foldr (fun p m => max |p.1| m) 0

lemma max_abs_nonneg (l : List (ℚ × ℚ)) : 0 ≤ max_abs l := by
  induction l with
  | nil => simp [max_abs]
  | cons p rest ih =>
      simp only [max_abs, List.foldr_cons] at ih ⊢
      exact le_trans ih (le_max_right _ _)

lemma max_abs_cons (p : ℚ × ℚ) (l : List (ℚ × ℚ)) :
    max_abs (p :: l) = max |p.1| (max_abs l) := rfl

lemma math_pi_pos : (0 : ℚ) < math_pi := by norm_num [math_pi]

/-- The smoothing coefficient `_alpha(cutoff, freq)` lies in `[0, 1]` for
positive cutoff and frequency. -/
lemma filter_alpha_mem (cutoff freq : ℚ) (hc : 0 < cutoff) (hf : 0 < freq) :
    0 ≤ filter_alpha cutoff freq ∧ filter_alpha cutoff freq ≤ 1 := by
  have hpi := math_pi_pos
  have htau : 0 < 1 / (2 * math_pi * cutoff) := by positivity
  have hte : 0 < 1 / freq := by positivity
  have hdiv : 0 < 1 / (2 * math_pi * cutoff) / (1 / freq) := by positivity
  constructor
  · unfold filter_alpha
    positivity
  · unfold filter_alpha
    rw [div_le_one (by linarith)]
    linarith

lemma one_euro_freq_pos (f : OneEuroFilter) (ts : ℚ) (hf : 0 < f.freq) :
    0 < one_euro_freq f ts := by
  unfold one_euro_freq
  cases f.last_time with
  | none => exact hf
  | some t0 =>
      by_cases h : 0 < ts - t0
      · simp only [if_pos h]
        positivity
      · simpa only [if_neg h] using hf

/-- A low-pass step with a coefficient in `[0, 1]` keeps the output within
the running bound, and stores the output as its smoothed value. -/
lemma low_pass_step_bound (lp : LowPassFilter) (v a m : ℚ)
    (ha0 : 0 ≤ a) (ha1 : a ≤ 1)
    (hs : ∀ s0, lp.s = Option.some s0 → |s0| ≤ m) :
    |(low_pass_step lp v a).2| ≤ max |v| m ∧
    (low_pass_step lp v a).1.s = Option.some (low_pass_step lp v a).2 := by
  refine ⟨?_, rfl⟩
  cases hy : lp.y with
  | none =>
      simp only [low_pass_step, hy]
      exact le_max_left _ _
  | some y0 =>
      cases hss : lp.s with
      | none =>
          simp only [low_pass_step, hy, hss]
          exact le_max_left _ _
      | some s0 =>
          have hb : |s0| ≤ m := hs s0 hss
          simp only [low_pass_step, hy, hss]
          calc |a * v + (1 - a) * s0|
              ≤ |a * v| + |(1 - a) * s0| := abs_add _ _
            _ = a * |v| + (1 - a) * |s0| := by
                rw [abs_mul, abs_mul, abs_of_nonneg ha0,
                  abs_of_nonneg (show (0 : ℚ) ≤ 1 - a from by linarith)]
            _ ≤ a * max |v| m + (1 - a) * max |v| m := by
                have g1 : a * |v| ≤ a * max |v| m :=
                  mul_le_mul_of_nonneg_left (le_max_left _ _) ha0
                have g2 : (1 - a) * |s0| ≤ (1 - a) * max |v| m :=
                  mul_le_mul_of_nonneg_left
                    (le_trans hb (le_max_right _ _)) (by linarith)
                linarith
            _ = max |v| m := by ring

/-- One filter step keeps the output within the running bound, keeps the
frequency positive, preserves the parameters, and stores a smoothed value
within the bound. -/
lemma one_euro_step_bound (f : OneEuroFilter) (x ts m : ℚ)
    (hmin : 0 < f.min_cutoff) (hbeta : 0 ≤ f.beta) (hfreq : 0 < f.freq)
    (hs : ∀ s0, f.x_filter.s = Option.some s0 → |s0| ≤ m) :
    |(one_euro_step f x ts).2| ≤ max |x| m ∧
    0 < (one_euro_step f x ts).1.freq ∧
    (one_euro_step f x ts).1.min_cutoff = f.min_cutoff ∧
    (one_euro_step f x ts).1.beta = f.beta ∧
    (∀ s0, (one_euro_step f x ts).1.x_filter.s = Option.some s0 →
      |s0| ≤ max |x| m) := by
  have hfr := one_euro_freq_pos f ts hfreq
  have hcut : 0 < one_euro_cutoff f x ts := by
    unfold one_euro_cutoff
    positivity
  obtain ⟨ha0, ha1⟩ :=
    filter_alpha_mem (one_euro_cutoff f x ts) (one_euro_freq f ts) hcut hfr
  obtain ⟨hbound, hstore⟩ := low_pass_step_bound f.x_filter x
    (filter_alpha (one_euro_cutoff f x ts) (one_euro_freq f ts)) m ha0 ha1 hs
  refine ⟨hbound, hfr, rfl, rfl, ?_⟩
  intro s0 hs0
  have : (one_euro_step f x ts).1.x_filter.s =
      Option.some (one_euro_step f x ts).2 := hstore
  rw [this] at hs0
  obtain rfl : (one_euro_step f x ts).2 = s0 := Option.some.inj hs0
  exact hbound

/-- Running the filter over any finite sample list: every output is bounded
in absolute value by the running maximum of `|x|` over the samples so far
(and the supplied bound on any initial smoothed state). -/
lemma one_euro_run_bound (inputs : List (ℚ × ℚ)) (f : OneEuroFilter) (m : ℚ)
    (hmin : 0 < f.min_cutoff) (hbeta : 0 ≤ f.beta) (hfreq : 0 < f.freq)
    (hs : ∀ s0, f.x_filter.s = Option.some s0 → |s0| ≤ m) :
    ∀ n (hn : n < (one_euro_run f inputs).2.length),
      |(one_euro_run f inputs).2.get ⟨n, hn⟩| ≤
        max (max_abs (inputs.take (n + 1))) m := by
  induction inputs generalizing f m with
  | nil =>
      intro n hn
      simp [one_euro_run] at hn
  | cons p rest ih =>
      obtain ⟨x, t⟩ := p
      obtain ⟨hbound, hfr', hmin', hbeta', hs'⟩ :=
        one_euro_step_bound f x t m hmin hbeta hfreq hs
      intro n hn
      cases n with
      | zero =>
          have hget : (one_euro_run f ((x, t) :: rest)).2.get ⟨0, hn⟩ =
              (one_euro_step f x t).2 := rfl
          rw [hget, List.take_succ_cons, List.take_zero, max_abs_cons]
          exact le_trans hbound (max_le_max (le_max_left _ _) (le_refl m))
      | succ k =>
          have hn' : k < (one_euro_run (one_euro_step f x t).1 rest).2.length :=
            Nat.lt_of_succ_lt_succ hn
          have hrec := ih (one_euro_step f x t).1 (max |x| m)
            (by rw [hmin']; exact hmin) (by rw [hbeta']; exact hbeta)
            hfr' hs' k hn'
          have hget : (one_euro_run f ((x, t) :: rest)).2.get ⟨k + 1, hn⟩ =
              (one_euro_run (one_euro_step f x t).1 rest).2.get ⟨k, hn'⟩ := rfl
          rw [hget]
          refine le_trans hrec (le_of_eq ?_)
          rw [List.take_succ_cons, max_abs_cons, max_assoc]
          exact max_left_comm _ _ _

/-- A low-pass step on a constant signal: a fresh filter (or one that has
only seen `c`) outputs `c` exactly and stays at `c`. -/
lemma low_pass_step_const (lp : LowPassFilter) (c a : ℚ)
    (hx : lp = ⟨Option.some c, Option.some c⟩ ∨
          lp = ⟨Option.none, Option.none⟩) :
    low_pass_step lp c a = (⟨Option.some c, Option.some c⟩, c) := by
  rcases hx with h | h
  · subst h
    simp only [low_pass_step]
    rw [show a * c + (1 - a) * c = c from by ring]
  · subst h
    rfl

lemma one_euro_step_const (f : OneEuroFilter) (c ts : ℚ)
    (hx : f.x_filter = ⟨Option.some c, Option.some c⟩ ∨
          f.x_filter = ⟨Option.none, Option.none⟩) :
    (one_euro_step f c ts).2 = c ∧
    (one_euro_step f c ts).1.x_filter = ⟨Option.some c, Option.some c⟩ := by
  have h := low_pass_step_const f.x_filter c
    (filter_alpha (one_euro_cutoff f c ts) (one_euro_freq f ts)) hx
  constructor
  · show (low_pass_step f.x_filter c
      (filter_alpha (one_euro_cutoff f c ts) (one_euro_freq f ts))).2 = c
    rw [h]
  · show (low_pass_step f.x_filter c
      (filter_alpha (one_euro_cutoff f c ts) (one_euro_freq f ts))).1 =
      (⟨Option.some c, Option.some c⟩ : LowPassFilter)
    rw [h]

/-- On a constant input signal the filter's output equals the input at
every sample: the first sample passes through, and afterwards
`α·c + (1-α)·c = c` regardless of the adaptive coefficient. -/
lemma one_euro_run_const (ts : List ℚ) (f : OneEuroFilter) (c : ℚ)
    (hx : f.x_filter = ⟨Option.some c, Option.some c⟩ ∨
          f.x_filter = ⟨Option.none, Option.none⟩) :
    (one_euro_run f (ts.map fun t => (c, t))).2 =
      List.replicate ts.length c := by
  induction ts generalizing f with
  | nil => rfl
  | cons t rest ih =>
      obtain ⟨h2, h1⟩ := one_euro_step_const f c t hx
      show (one_euro_step f c t).2 ::
          (one_euro_run (one_euro_step f c t).1
            (rest.map fun t => (c, t))).2 = _
      rw [h2, ih _ (Or.inl h1), List.length_cons, List.replicate_succ]

/-- C10: for the one-euro filter with positive initial frequency, positive
`min_cutoff` and non-negative `beta`, started fresh: (a) every output value
is bounded in absolute value by the maximum of `|x|` over the inputs so
far; (b) for a constant input signal the output equals the input at every
sample — so it is within any `ε` of the input immediately, in particular in
time `O(1/fc_min)`. -/
theorem C10_one_euro_filter (fr mc b dc : ℚ) (hfr : 0 < fr) (hmin : 0 < mc)
    (hbeta : 0 ≤ b) (inputs : List (ℚ × ℚ)) (c : ℚ) (ts : List ℚ) :
    (∀ n (hn : n < (one_euro_run
        { freq := fr, min_cutoff := mc, beta := b, d_cutoff := dc }
        inputs).2.length),
      |(one_euro_run
        { freq := fr, min_cutoff := mc, beta := b, d_cutoff := dc }
        inputs).2.get ⟨n, hn⟩| ≤ max_abs (inputs.take (n + 1))) ∧
    (one_euro_run { freq := fr, min_cutoff := mc, beta := b, d_cutoff := dc }
      (ts.map fun t => (c, t))).2 = List.replicate ts.length c := by
  constructor
  · intro n hn
    have h := one_euro_run_bound inputs
      { freq := fr, min_cutoff := mc, beta := b, d_cutoff := dc } 0
      hmin hbeta hfr (fun s0 h0 => by simp at h0) n hn
    rwa [max_eq_left (max_abs_nonneg _)] at h
  · exact one_euro_run_const ts _ c (Or.inr rfl)

/-- Witness for C10: the virtual-mouse parameters (freq 30, min_cutoff 1,
beta 0.007, d_cutoff 1), an arbitrary two-sample input list, and the
constant signal 5 sampled at two timestamps. -/
theorem C10_one_euro_filter_witness :
    (0 : ℚ) < 30 ∧ (0 : ℚ) < 1 ∧ (0 : ℚ) ≤ 7 / 1000 ∧
    ((∀ n (hn : n < (one_euro_run
        { freq := 30, min_cutoff := 1, beta := 7 / 1000, d_cutoff := 1 }
        [((1 : ℚ), (1 : ℚ)), (2, 2)]).2.length),
      |(one_euro_run
        { freq := 30, min_cutoff := 1, beta := 7 / 1000, d_cutoff := 1 }
        [((1 : ℚ), (1 : ℚ)), (2, 2)]).2.get ⟨n, hn⟩| ≤
        max_abs ([((1 : ℚ), (1 : ℚ)), (2, 2)].take (n + 1))) ∧
     (one_euro_run { freq := 30, min_cutoff := 1, beta := 7 / 1000, d_cutoff := 1 }
       ([(1 : ℚ), 2].map fun t => ((5 : ℚ), t))).2 =
       List.replicate ([(1 : ℚ), 2].length) 5) :=
  ⟨by norm_num, by norm_num, by norm_num,
   C10_one_euro_filter 30 1 (7 / 1000) 1 (by norm_num) (by norm_num)
     (by norm_num) [((1 : ℚ), (1 : ℚ)), (2, 2)] 5 [(1 : ℚ), 2]⟩

end GestureApp
